import Mathlib

/-!
Verification development for the weekly-menu transformation core
(`generate_menus.py`).  Python strings are embedded as lists of Unicode
code points (`Str := List Nat`); every definition below is a direct
translation of the corresponding Python function, keeping the source
name where Lean allows it.
-/

/-- Code points of a Lean string literal, used to write Python string
literals in the embedding. -/
def String.toCodes (s : String) : List Nat := s.toList.map Char.toNat

namespace GM

/-- Python strings, as lists of Unicode code points. -/
abbrev Str := List Nat

/-- Python whitespace (the characters matched by `\s` and stripped by
`str.strip()` for ASCII data): space, tab, newline, carriage return,
vertical tab, form feed. -/
def isSpaceC (c : Nat) : Bool :=
  c = 32 || c = 9 || c = 10 || c = 13 || c = 11 || c = 12

def trimLeft (l : Str) : Str := l.dropWhile isSpaceC

def trimRight (l : Str) : Str := (l.reverse.dropWhile isSpaceC).reverse

/-- Python `str.strip()` (no arguments). -/
def trim (l : Str) : Str := trimLeft (trimRight l)

/-- Python `str.lower()` on one ASCII character. -/
def lowerC (c : Nat) : Nat := if 65 ≤ c ∧ c ≤ 90 then c + 32 else c

/-- Python `str.upper()` on one ASCII character. -/
def upperC (c : Nat) : Nat := if 97 ≤ c ∧ c ≤ 122 then c - 32 else c

def lower (l : Str) : Str := l.map lowerC

/-- Python `str.isalpha()` for ASCII characters. -/
def isAlphaC (c : Nat) : Bool := (65 ≤ c && c ≤ 90) || (97 ≤ c && c ≤ 122)

def isDigitC (c : Nat) : Bool := 48 ≤ c && c ≤ 57

/-- `sentence_case` (generate_menus.py lines 66-73): strip, find the first
alphabetic character, uppercase it and lowercase everything after it. -/
def sentence_case (s : Str) : Str :=
  let t := trim s
  if t = [] then t
  else
    match t.findIdx? isAlphaC with
    | none => t
    | some i => t.take i ++ upperC (t.getD i 0) :: (t.drop (i + 1)).map lowerC

def tagVe : Str := "(Ve)".toCodes

def tagV : Str := "(V)".toCodes

/-- The effect of `re.sub(r"\s*\((Ve|V)\)\s*$", "", s)`: if the string,
after its trailing whitespace, ends in the standalone tag `(Ve)` or `(V)`,
remove the tag together with the whitespace around it. -/
def remove_tag (l : Str) : Str :=
  let r := trimRight l
  if tagVe <:+ r then trimRight (r.take (r.length - 4))
  else if tagV <:+ r then trimRight (r.take (r.length - 3))
  else l

/-- `strip_suffixes` (lines 75-76). -/
def strip_suffixes (l : Str) : Str := trim (remove_tag l)

/-- `add_suffix` (lines 78-79): `f"{strip_suffixes(s)} {suffix}".strip()`. -/
def add_suffix (s : Str) (tag : Str) : Str :=
  trim (strip_suffixes s ++ 32 :: tag)

/-! ### Date handling (`to_iso`, lines 101-109, and `date_label`) -/

/-- Day-number token of CPython `strptime` (`3[01]|[12]\d|0[1-9]|[1-9]`):
candidate parses in regex alternation order (two digits 01-31 first,
then one digit 1-9). -/
def dayCands (l : Str) : List (Nat × Str) :=
  (match l with
   | a :: b :: r =>
     if isDigitC a && isDigitC b &&
        decide (1 ≤ (a - 48) * 10 + (b - 48)) && decide ((a - 48) * 10 + (b - 48) ≤ 31) then
       [((a - 48) * 10 + (b - 48), r)]
     else []
   | _ => []) ++
  (match l with
   | a :: r => if isDigitC a && decide (1 ≤ a - 48) then [(a - 48, r)] else []
   | _ => [])

/-- Month-number token of CPython `strptime` (`1[0-2]|0[1-9]|[1-9]`). -/
def monthCands (l : Str) : List (Nat × Str) :=
  (match l with
   | a :: b :: r =>
     if isDigitC a && isDigitC b &&
        decide (1 ≤ (a - 48) * 10 + (b - 48)) && decide ((a - 48) * 10 + (b - 48) ≤ 12) then
       [((a - 48) * 10 + (b - 48), r)]
     else []
   | _ => []) ++
  (match l with
   | a :: r => if isDigitC a && decide (1 ≤ a - 48) then [(a - 48, r)] else []
   | _ => [])

/-- Four-digit year token (`\d\d\d\d`). -/
def year4 (l : Str) : Option (Nat × Str) :=
  match l with
  | a :: b :: c :: d :: r =>
    if isDigitC a && isDigitC b && isDigitC c && isDigitC d then
      some ((a - 48) * 1000 + (b - 48) * 100 + (c - 48) * 10 + (d - 48), r)
    else none
  | _ => none

/-- Two-digit year token (`\d\d`), with CPython's century rule:
00-68 map to 2000-2068 and 69-99 to 1969-1999. -/
def year2 (l : Str) : Option (Nat × Str) :=
  match l with
  | a :: b :: r =>
    if isDigitC a && isDigitC b then
      some ((if (a - 48) * 10 + (b - 48) < 69 then 2000 else 1900) + (a - 48) * 10 + (b - 48), r)
    else none
  | _ => none

def firstSome : List (Option α) → Option α
  | [] => none
  | some a :: _ => some a
  | none :: r => firstSome r

/-- Regex match of `strptime` format `%d/%m/%Y` (whole string), with
backtracking over the day/month token alternatives. Returns `(y, m, d)`. -/
def matchDMY4 (l : Str) : Option (Nat × Nat × Nat) :=
  firstSome <| (dayCands l).map fun dc =>
    match dc.2 with
    | 47 :: r2 =>
      firstSome <| (monthCands r2).map fun mc =>
        match mc.2 with
        | 47 :: r4 =>
          match year4 r4 with
          | some (y, []) => some (y, mc.1, dc.1)
          | _ => none
        | _ => none
    | _ => none

/-- Regex match of `strptime` format `%d/%m/%y` (whole string). -/
def matchDMY2 (l : Str) : Option (Nat × Nat × Nat) :=
  firstSome <| (dayCands l).map fun dc =>
    match dc.2 with
    | 47 :: r2 =>
      firstSome <| (monthCands r2).map fun mc =>
        match mc.2 with
        | 47 :: r4 =>
          match year2 r4 with
          | some (y, []) => some (y, mc.1, dc.1)
          | _ => none
        | _ => none
    | _ => none

/-- Regex match of `strptime` format `%Y-%m-%d` (whole string). -/
def matchYMD (l : Str) : Option (Nat × Nat × Nat) :=
  match year4 l with
  | some (y, 45 :: r2) =>
    firstSome <| (monthCands r2).map fun mc =>
      match mc.2 with
      | 45 :: r4 =>
        firstSome <| (dayCands r4).map fun dc =>
          match dc.2 with
          | [] => some (y, mc.1, dc.1)
          | _ => none
      | _ => none
  | _ => none

def isLeap (y : Nat) : Bool := (y % 4 = 0 && y % 100 ≠ 0) || y % 400 = 0

def daysInMonth (y m : Nat) : Nat :=
  if m = 2 then (if isLeap y then 29 else 28)
  else if m = 4 || m = 6 || m = 9 || m = 11 then 30
  else 31

/-- Validity check performed by the `datetime.date` constructor. -/
def validDate (y m d : Nat) : Bool :=
  1 ≤ y && y ≤ 9999 && 1 ≤ m && m ≤ 12 && 1 ≤ d && d ≤ daysInMonth y m

/-- One `strptime` attempt: the regex must match the whole string and the
matched numbers must form a real calendar date. -/
def parseFmt (re : Str → Option (Nat × Nat × Nat)) (l : Str) : Option (Nat × Nat × Nat) :=
  match re l with
  | some (y, m, d) => if validDate y m d then some (y, m, d) else none
  | none => none

/-- Zero-padded two-digit decimal (arguments below are < 100). -/
def pad2 (n : Nat) : Str := [48 + n / 10 % 10, 48 + n % 10]

/-- Zero-padded four-digit decimal (arguments below are ≤ 9999). -/
def pad4 (n : Nat) : Str :=
  [48 + n / 1000 % 10, 48 + n / 100 % 10, 48 + n / 10 % 10, 48 + n % 10]

/-- `date.isoformat()` for the years produced here (1..9999). -/
def iso_of (y m d : Nat) : Str := pad4 y ++ 45 :: pad2 m ++ 45 :: pad2 d

/-- `to_iso` (lines 101-109): strip, then try `%d/%m/%Y`, `%d/%m/%y`,
`%Y-%m-%d` in that order; on success return the ISO date, otherwise
return the stripped string. -/
def to_iso (s : Str) : Str :=
  let ds := trim s
  match parseFmt matchDMY4 ds with
  | some (y, m, d) => iso_of y m d
  | none =>
    match parseFmt matchDMY2 ds with
    | some (y, m, d) => iso_of y m d
    | none =>
      match parseFmt matchYMD ds with
      | some (y, m, d) => iso_of y m d
      | none => ds

/-- `date.fromisoformat`: strict `YYYY-MM-DD` with two-digit month and
day, used by `date_label`. -/
def fromIsoFormat (l : Str) : Option (Nat × Nat × Nat) :=
  match l with
  | [y1, y2, y3, y4, 45, m1, m2, 45, d1, d2] =>
    if [y1, y2, y3, y4, m1, m2, d1, d2].all isDigitC then
      let y := (y1 - 48) * 1000 + (y2 - 48) * 100 + (y3 - 48) * 10 + (y4 - 48)
      let m := (m1 - 48) * 10 + (m2 - 48)
      let d := (d1 - 48) * 10 + (d2 - 48)
      if validDate y m d then some (y, m, d) else none
    else none
  | _ => none

/-- `date_label` (lines 111-117): `"{weekday} – {d:%d/%m/%Y}"`, falling
back to the raw iso text when it does not parse. -/
def date_label (iso weekday : Str) : Str :=
  match fromIsoFormat iso with
  | some (y, m, d) => weekday ++ " – ".toCodes ++ pad2 d ++ 47 :: pad2 m ++ 47 :: pad4 y
  | none => weekday ++ " – ".toCodes ++ iso

/-! ### The cell parser (`ALLERGEN_TAIL_RE`, lines 179-182, and
`parse_title_desc_allergens`, lines 246-274) -/

/-- Word characters for the regex `\b` boundary (`[A-Za-z0-9_]`). -/
def isWordC (c : Nat) : Bool := isAlphaC c || isDigitC c || c = 95

/-- The alternatives of `ALLERGEN_TAIL_RE`. -/
def TAIL_WORDS : List Str :=
  ["Milk", "Egg", "Soya", "Gluten", "Nuts", "Peanuts", "Sesame", "Mustard",
   "Celery", "Sulphites", "Fish", "Crustaceans", "Molluscs"].map String.toCodes

/-- Does `ALLERGEN_TAIL_RE` (`\bWORD\b.*$`, case-insensitive, no DOTALL or
MULTILINE) match at position `p` of `l`?  It does exactly when a word
boundary precedes `p`, one of the alternatives matches case-insensitively
at `p` followed by a word boundary, and no newline occurs at or after `p`
(so that `.*` reaches the end-of-string anchor). -/
def matchAt (l : Str) (p : Nat) : Bool :=
  (decide (p = 0) || !isWordC (l.getD (p - 1) 0)) &&
  TAIL_WORDS.any (fun w =>
    decide (lower ((l.drop p).take w.length) = lower w) &&
    !isWordC ((l.drop (p + w.length)).getD 0 0)) &&
  !(l.drop p).contains 10

/-- First index `≥ i` (within `fuel` steps) satisfying `f`: the scan
`re.search` performs, left to right. -/
def scanFirst (f : Nat → Bool) (i : Nat) : Nat → Option Nat
  | 0 => none
  | fuel + 1 => if f i then some i else scanFirst f (i + 1) fuel

/-- `ALLERGEN_TAIL_RE.search(raw)`: position of the leftmost match. -/
def tail_search (l : Str) : Option Nat := scanFirst (matchAt l) 0 (l.length + 1)

def replaceCR (l : Str) : Str := l.map (fun c => if c = 13 then 10 else c)

def isBlankC (c : Nat) : Bool := c = 32 || c = 9

/-- `re.sub(r"[ \t]{2,}", "\n", body)`: replace each maximal run of two
or more spaces/tabs by one newline (fuel-driven recursion; the fuel used
below always suffices). -/
def collapseWsF : Nat → Str → Str
  | 0, l => l
  | _, [] => []
  | fuel + 1, c :: r =>
    if isBlankC c && isBlankC (r.getD 0 10) then
      10 :: collapseWsF fuel (r.dropWhile isBlankC)
    else c :: collapseWsF fuel r

/-- `re.sub(r"\s*,\s*", ", ", s)`: each comma together with surrounding
whitespace becomes `", "`. -/
def normCommasF : Nat → Str → Str
  | 0, l => l
  | _, [] => []
  | fuel + 1, c :: r =>
    match (c :: r).dropWhile isSpaceC with
    | 44 :: r2 => 44 :: 32 :: normCommasF fuel (r2.dropWhile isSpaceC)
    | _ => c :: normCommasF fuel r

/-- `str.replace(" ,", ",")`. -/
def replaceSpaceComma : Str → Str
  | 32 :: 44 :: r => 44 :: replaceSpaceComma r
  | c :: r => c :: replaceSpaceComma r
  | [] => []

def isSpaceCommaC (c : Nat) : Bool := c = 32 || c = 44

/-- `str.strip(" ,")`. -/
def stripSpaceComma (l : Str) : Str :=
  ((l.dropWhile isSpaceCommaC).reverse.dropWhile isSpaceCommaC).reverse

structure CellParts where
  title : Str
  description : Str
  allergens : Str
deriving DecidableEq

/-- `parse_title_desc_allergens` (lines 246-274). -/
def parse_title_desc_allergens (cell_text : Str) : CellParts :=
  let raw := trim (replaceCR cell_text)
  let (body, allergens0) :=
    match tail_search raw with
    | some p => (trim (raw.take p), trim (raw.drop p))
    | none => (raw, [])
  let body2 := collapseWsF (body.length + 1) body
  let lines := ((body2.splitOn 10).map trim).filter (fun ln => !ln.isEmpty)
  let title := lines.headD []
  let description := if lines.length > 1 then trim (List.intercalate [32] lines.tail) else []
  let allergens :=
    if allergens0.isEmpty then allergens0
    else stripSpaceComma (replaceSpaceComma (normCommasF (allergens0.length + 1) allergens0))
  ⟨title, description, allergens⟩

/-! ### Python values that may be a `str` or a highlighted `RichText` -/

/-- A Python value that is either a plain string or a `RichText` run
highlighted in yellow (the only `RichText` shape `_yellow` builds). -/
inductive RT where
  | plain (s : Str)
  | yellow (s : Str)
deriving DecidableEq

/-- `str(...)` of such a value.  For a `RichText`, `str` yields its XML
(docxtpl builds `<w:r><w:rPr><w:highlight w:val="yellow"/></w:rPr><w:t
xml:space="preserve">text</w:t></w:r>`), so a highlighted title that
reaches a table label appears as this wrapper around its text. -/
def rtStr : RT → Str
  | .plain s => s
  | .yellow s =>
      "<w:r><w:rPr><w:highlight w:val=".toCodes ++ 34 ::
      "yellow".toCodes ++ 34 :: "/></w:rPr><w:t xml:space=".toCodes ++ 34 ::
      "preserve".toCodes ++ 34 :: 62 :: s ++ "</w:t></w:r>".toCodes

/-- `_yellow` applied to a value (lines 56-60): wrap its text. -/
def yellowOfRT (t : RT) : RT := .yellow (rtStr t)

def aposFix (c : Nat) : Nat := if c = 8217 then 39 else c

/-- Substring test, Python `b in a`. -/
def containsSub (a b : Str) : Bool := decide (b <:+: a)

/-- `_is_chefs_choice_soup` (lines 62-64). -/
def is_chefs_choice_soup (t : Str) : Bool :=
  let s := (lower t).map aposFix
  containsSub s "chef".toCodes && containsSub s "choice".toCodes && containsSub s "soup".toCodes

def is_chefs_rt (t : RT) : Bool := is_chefs_choice_soup (rtStr t)

/-! ### Allergen vocabulary (lines 127-228) -/

def CANON_COLS : List Str :=
  ["Celery", "Cereals with Gluten", "Crustaceans", "Eggs", "Fish", "Lupin", "Milk",
   "Molluscs", "Mustards", "Peanuts", "Nuts from Trees", "Sesame", "Soybeans",
   "Sulphur", "Alcohol", "Pork"].map String.toCodes

def ALLERGEN_NORMALISE : List (Str × Str) :=
  [("celery", "Celery"), ("gluten", "Cereals with Gluten"),
   ("cereals with gluten", "Cereals with Gluten"), ("crustaceans", "Crustaceans"),
   ("egg", "Eggs"), ("eggs", "Eggs"), ("fish", "Fish"), ("lupin", "Lupin"),
   ("milk", "Milk"), ("mollusc", "Molluscs"), ("molluscs", "Molluscs"),
   ("mustard", "Mustards"), ("mustards", "Mustards"), ("peanut", "Peanuts"),
   ("peanuts", "Peanuts"), ("tree nuts", "Nuts from Trees"), ("nuts", "Nuts from Trees"),
   ("sesame", "Sesame"), ("soya", "Soybeans"), ("soy", "Soybeans"),
   ("soybeans", "Soybeans"), ("sulphite", "Sulphur"), ("sulphites", "Sulphur"),
   ("sulfur dioxide", "Sulphur"), ("sulphur dioxide", "Sulphur"), ("sulphur", "Sulphur"),
   ("alcohol", "Alcohol"), ("pork", "Pork")].map fun p => (p.1.toCodes, p.2.toCodes)

/-- `_parse_allergen_csv` (lines 210-216): CSV or slash-separated string
to the set of canonical column names; unknown tokens dropped. -/
def parse_allergen_csv (csv : Str) : Finset Str :=
  if csv = [] then ∅
  else
    let raw := csv.map fun c => if c = 47 then 44 else c
    let toks := ((raw.splitOn 44).map fun t => lower (trim t)).filter fun t => !t.isEmpty
    toks.foldl (fun acc t =>
      match List.lookup t ALLERGEN_NORMALISE with
      | some c => insert c acc
      | none => acc) ∅

/-- `_scrub_vegan_csv_to_canonset` (lines 218-219): parse, then drop the
non-vegan categories Milk and Eggs. -/
def scrub_vegan_csv_to_canonset (csv : Str) : Finset Str :=
  (parse_allergen_csv csv).filter fun c => ¬(c = "Milk".toCodes ∨ c = "Eggs".toCodes)

def FORBIDDEN_TOKENS : List Str := ["milk", "egg", "eggs"].map String.toCodes

/-- `_remove_tokens_from_csv` (lines 221-228): string-level Milk/Egg scrub. -/
def remove_tokens_from_csv (csv : Str) : Str :=
  if csv = [] then []
  else
    let raw := csv.map fun c => if c = 47 then 44 else c
    let toks := ((raw.splitOn 44).map trim).filter fun t => !t.isEmpty
    let keep := toks.filter fun t => !(FORBIDDEN_TOKENS.contains (lower t))
    List.intercalate ", ".toCodes keep

/-! ### `normalise_sides` (lines 81-93) -/

def isBulletC (c : Nat) : Bool := c = 32 || c = 45 || c = 8211 || c = 8226

def stripBullet (l : Str) : Str :=
  ((l.dropWhile isBulletC).reverse.dropWhile isBulletC).reverse

def rstripDot (l : Str) : Str := (l.reverse.dropWhile (fun c => c = 46)).reverse

/-- `p.strip(" -–•").rstrip(".").strip()`. -/
def sideClean (p : Str) : Str := trim (rstripDot (stripBullet p))

/-- `re.split(r",|/|\t+|\s{2,}|\n+", raw)` as a fuel-driven left-to-right
scan; alternatives tried in the regex order at each position. -/
def splitSidesF : Nat → Str → Str → List Str
  | 0, cur, l => [cur.reverse ++ l]
  | _, cur, [] => [cur.reverse]
  | fuel + 1, cur, c :: r =>
    if c = 44 || c = 47 then cur.reverse :: splitSidesF fuel [] r
    else if c = 9 then cur.reverse :: splitSidesF fuel [] (r.dropWhile fun x => x = 9)
    else if isSpaceC c && isSpaceC (r.getD 0 0) then
      cur.reverse :: splitSidesF fuel [] (r.dropWhile isSpaceC)
    else if c = 10 then cur.reverse :: splitSidesF fuel [] (r.dropWhile fun x => x = 10)
    else splitSidesF fuel (c :: cur) r

/-- Case-insensitive first-seen de-duplication (`seen` holds lowercased
items already kept). -/
def dedupCI (seen : List Str) : List Str → List Str
  | [] => []
  | p :: r =>
    if seen.contains (lower p) then dedupCI seen r
    else p :: dedupCI (lower p :: seen) r

/-- `normalise_sides` (lines 81-93). -/
def normalise_sides (text : Str) : Str :=
  if text = [] then []
  else
    let raw := replaceCR text
    let parts0 := splitSidesF (raw.length + 1) [] raw
    let parts := (parts0.filter fun p => !p.isEmpty && !(trim p).isEmpty).map sideClean
    List.intercalate ", ".toCodes (dedupCI [] parts)

/-! ### The data model: one parsed day (`parse_week`, lines 276-358) -/

/-- A source menu item; fields missing from the Python dict are `[]`
(`dict.get` with default `""`). -/
structure SrcItem where
  title : Str := []
  description : Str := []
  allergens : Str := []
deriving DecidableEq

/-- A lunch-starter row: its title cell is the one place the standard
builder writes a highlighted `RichText` back into the day record. -/
structure StItem where
  title : RT := .plain []
  allergens : Str := []
deriving DecidableEq

structure Header where
  theme : Str
  date : Str
  date_iso : Str
  weekday : Str
deriving DecidableEq

structure Lunch where
  starters : List StItem
  veg_main : SrcItem
  meat_main : SrcItem
  vegan_main : SrcItem
  optional_sides : SrcItem
  desserts : List SrcItem
deriving DecidableEq

structure Supper where
  starter : SrcItem
  selection : SrcItem
  specials : SrcItem
  vegan_special : SrcItem
  desserts : List SrcItem
deriving DecidableEq

structure Day where
  header : Header
  lunch : Lunch
  supper : Supper
deriving DecidableEq

/-- `ensure_len` (lines 95-99). -/
def ensure_len (l : List α) (n : Nat) (filler : α) : List α :=
  (l ++ List.replicate (n - l.length) filler).take n

def WEEKDAY_DEFAULTS : List Str :=
  ["Monday", "Tuesday", "Wednesday", "Thursday", "Friday", "Saturday", "Sunday"].map
    String.toCodes

/-- The fixed supper-starter title `"Chef’s choice soup"` (with the
right single quotation mark the source uses). -/
def CHEFS_SOUP : Str := "Chef".toCodes ++ 8217 :: "s choice soup".toCodes

def SOUP_V : Str := "Chef".toCodes ++ 8217 :: "s choice soup (V)".toCodes

def SOUP_VE : Str := "Chef".toCodes ++ 8217 :: "s choice soup (Ve)".toCodes

def ICE_V : Str := "Ice creams / sorbet (V)".toCodes

def ICE_VE : Str := "Selection of vegan ice creams or sorbet with seasonal fruits (Ve)".toCodes

def SELECTION_ALL : Str := "Sulphites, Gluten, Mustard, Soya".toCodes

/-- One day column of `parse_week` (lines 304-356); `cell r c` is the
grid accessor (`rows[r].cells[c].text`, `""` when absent). -/
def daily (cell : Nat → Nat → Str) (i : Nat) : Day :=
  let g : Nat → SrcItem := fun r =>
    let c := parse_title_desc_allergens (cell r (i + 1))
    ⟨c.title, c.description, c.allergens⟩
  let day_name0 := trim (cell 0 (i + 1))
  let day_name := if day_name0 = [] then WEEKDAY_DEFAULTS.getD i [] else day_name0
  let date_iso := to_iso (trim (cell 1 (i + 1)))
  let theme := trim (cell 2 (i + 1))
  let lunch_starters : List StItem :=
    [⟨.plain (g 3).title, (g 3).allergens⟩, ⟨.plain (g 4).title, (g 4).allergens⟩]
  let opt_raw := trim ((g 8).title ++ 32 :: (g 8).description)
  let desserts : List SrcItem :=
    [⟨(g 9).title, [], (g 9).allergens⟩, ⟨ICE_V, [], (g 10).allergens⟩]
  let supper_desserts : List SrcItem :=
    [⟨(g 16).title, [], (g 16).allergens⟩, ⟨ICE_VE, [], (g 17).allergens⟩]
  { header := ⟨theme, date_label date_iso day_name, date_iso, day_name⟩,
    lunch :=
      { starters := ensure_len lunch_starters 2 ⟨.plain [], []⟩,
        veg_main := g 6,
        meat_main := g 7,
        vegan_main := g 5,
        optional_sides := ⟨normalise_sides opt_raw, [], (g 8).allergens⟩,
        desserts := ensure_len desserts 2 ⟨[], [], []⟩ },
    supper :=
      { starter := ⟨CHEFS_SOUP, [], (g 12).allergens⟩,
        selection := ⟨[], [], SELECTION_ALL⟩,
        specials := g 15,
        vegan_special := g 13,
        desserts := ensure_len supper_desserts 2 ⟨[], [], []⟩ } }

/-- `parse_week` (lines 276-358): the seven day records. -/
def parse_week (cell : Nat → Nat → Str) : List Day :=
  (List.range 7).map (daily cell)

/-! ### Display contexts and the two view builders -/

/-- One item of a display context; titles and descriptions may be
highlighted `RichText` values. -/
structure CtxItem where
  title : RT := .plain []
  description : RT := .plain []
  allergens : Str := []
deriving DecidableEq

structure CtxHeader where
  theme : Str
  date : Str
deriving DecidableEq

structure LunchCtx where
  starters : List CtxItem
  mains : List CtxItem
  optional_sides : CtxItem
  desserts : List CtxItem
deriving DecidableEq

structure SupperCtx where
  starter : CtxItem
  selection : CtxItem
  specials : CtxItem
  desserts : List CtxItem
deriving DecidableEq

structure Ctx where
  header : CtxHeader
  days : CtxHeader
  lunch : LunchCtx
  supper : SupperCtx
deriving DecidableEq

def stFiller : StItem := ⟨.plain [], []⟩

/-- `build_standard_context` (lines 364-408), embedded with the state it
threads: the input day record is returned alongside the context because
the highlight block (lines 382-384) writes `RichText` titles back into
the day's lunch-starter dicts (`ensure_len` copies the list but shares
its element dicts).  `none` models the `IndexError` the Python code
raises when the day lacks a first lunch starter or two lunch/supper
desserts (lines 374-379). -/
def build_standard_context (day : Day) : Option (Day × Ctx) :=
  match day.lunch.starters, day.lunch.desserts, day.supper.desserts with
  | st0 :: _, ld0 :: ld1 :: _, sd0 :: sd1 :: _ =>
    let starters := ensure_len day.lunch.starters 2 stFiller
    let s0 := starters.getD 0 stFiller
    let s1 := starters.getD 1 stFiller
    let mv := day.lunch.veg_main
    let mm := day.lunch.meat_main
    let mains : List CtxItem :=
      [⟨.plain (strip_suffixes mv.title ++ " (V)".toCodes), .plain mv.description, mv.allergens⟩,
       ⟨.plain (strip_suffixes mm.title), .plain mm.description, mm.allergens⟩]
    let opt := day.lunch.optional_sides
    let d0_title := sentence_case (strip_suffixes ld0.title) ++ " (V)".toCodes
    let supper_starter : CtxItem := ⟨.plain SOUP_V, .plain [], st0.allergens⟩
    let sp := day.supper.specials
    let sd0_title := sentence_case (strip_suffixes sd0.title) ++ " (V)".toCodes
    let s0' := if is_chefs_rt s0.title then { s0 with title := yellowOfRT s0.title } else s0
    let s1' := if is_chefs_rt s1.title then { s1 with title := yellowOfRT s1.title } else s1
    let supper_starter' :=
      if is_chefs_rt supper_starter.title then
        { supper_starter with title := yellowOfRT supper_starter.title }
      else supper_starter
    let day' : Day :=
      { day with lunch := { day.lunch with starters := (day.lunch.starters.set 0 s0').set 1 s1' } }
    some (day',
      { header := ⟨day.header.theme, day.header.date⟩,
        days := ⟨day.header.theme, day.header.date⟩,
        lunch :=
          { starters := [⟨s0'.title, .plain [], s0'.allergens⟩, ⟨s1'.title, .plain [], s1'.allergens⟩],
            mains := mains,
            optional_sides := ⟨.plain opt.title, .plain [], opt.allergens⟩,
            desserts := [⟨.plain d0_title, .plain [], ld0.allergens⟩,
                         ⟨.plain ld1.title, .plain [], ld1.allergens⟩] },
        supper :=
          { starter := supper_starter',
            selection := ⟨.plain [], .plain [], SELECTION_ALL⟩,
            specials := ⟨.plain (strip_suffixes sp.title), .plain sp.description, sp.allergens⟩,
            desserts := [⟨.plain sd0_title, .plain [], sd0.allergens⟩,
                         ⟨.plain sd1.title, .plain [], sd1.allergens⟩] } })
  | _, _, _ => none

/-! The vegan-main "safety net" (lines 426-430 and 461-465): recognise a
dish title dumped into the allergens cell. -/

def VE_TAG : Str := "(ve)".toCodes

/-- Least position `q ≥ start` where `(ve)` occurs case-insensitively,
reachable from `start` without crossing a newline (the lazy `.*?`). -/
def veEndFrom (l : Str) (start : Nat) : Option Nat :=
  scanFirst (fun q =>
    decide (start ≤ q) &&
    !((l.drop start).take (q - start)).contains 10 &&
    decide (lower ((l.drop q).take 4) = VE_TAG)) 0 (l.length + 1)

/-- `re.search(r"[A-Za-z].+\(ve\)", s, re.I)` as a Boolean: an alphabetic
character, at least one `.` character, then `(ve)`. -/
def hasAlphaVe (l : Str) : Bool :=
  (List.range l.length).any fun p =>
    isAlphaC (l.getD p 0) &&
    ((List.range (l.length + 1)).any fun q =>
      decide (p + 2 ≤ q) &&
      !((l.drop (p + 1)).take (q - (p + 1))).contains 10 &&
      decide (lower ((l.drop q).take 4) = VE_TAG))

/-- `re.search(r"([A-Za-z].*?\(ve\))", s, re.I)`: the span `(start, end)`
of the leftmost, lazily extended match. -/
def extractVe (l : Str) : Option (Nat × Nat) :=
  match scanFirst (fun p => isAlphaC (l.getD p 0) && (veEndFrom l (p + 1)).isSome)
      0 (l.length + 1) with
  | none => none
  | some p =>
    match veEndFrom l (p + 1) with
    | some q => some (p, q + 4)
    | none => none

/-- `re.sub(r"[A-Za-z].*?\(ve\)\s*", "", s, flags=re.I)`: remove every
such phrase together with its trailing whitespace. -/
def subAlphaVeF : Nat → Str → Str
  | 0, l => l
  | _, [] => []
  | fuel + 1, c :: r =>
    if isAlphaC c then
      match veEndFrom (c :: r) 1 with
      | some q => subAlphaVeF fuel (((c :: r).drop (q + 4)).dropWhile isSpaceC)
      | none => c :: subAlphaVeF fuel r
    else c :: subAlphaVeF fuel r

/-- The guarded title/allergens recovery applied to the vegan-main and
vegan-supper-special rows (lines 423-430 and 457-465): returns the
possibly recovered `(title_raw, allergens_raw)` pair. -/
def recoverVe (title all : Str) : Str × Str :=
  if containsSub (lower all) "(ve".toCodes || hasAlphaVe all then
    let t' :=
      match extractVe all with
      | some pe =>
        if (strip_suffixes title).length < 2 then trim ((all.take pe.2).drop pe.1) else title
      | none => title
    (t', trim (subAlphaVeF (all.length + 1) all))
  else (title, all)

/-- Separator of `pick_vegan_variant`'s split regex
(`\s*(?:/|\n|;|\||\bor\b)\s*`) tested at the head of `l`; `prev` is the
code point just before `l` (`0` at the start of the string). -/
def sepCheck (prev : Nat) (l : Str) : Option Str :=
  let ws := l.takeWhile isSpaceC
  let w := l.dropWhile isSpaceC
  match w with
  | 47 :: r => some (r.dropWhile isSpaceC)
  | 59 :: r => some (r.dropWhile isSpaceC)
  | 124 :: r => some (r.dropWhile isSpaceC)
  | _ =>
    if lower (w.take 2) = "or".toCodes && !isWordC (w.getD 2 0) &&
       (!ws.isEmpty || !isWordC prev) then
      some ((w.drop 2).dropWhile isSpaceC)
    else if ws.contains 10 then some w
    else none

def splitVariantsF : Nat → Nat → Str → Str → List Str
  | 0, _, cur, l => [cur.reverse ++ l]
  | _, _, cur, [] => [cur.reverse]
  | fuel + 1, prev, cur, c :: r =>
    match sepCheck prev (c :: r) with
    | some rest => cur.reverse :: splitVariantsF fuel 32 [] rest
    | none => splitVariantsF fuel c (c :: cur) r

/-- `pick_vegan_variant` (lines 673-692).  (The final two Python return
statements are textually identical, hence one branch here.) -/
def pick_vegan_variant (title desc : Str) : Str :=
  let combined := trim (title ++ 32 :: desc)
  if combined = [] then add_suffix title "(Ve)".toCodes
  else
    let parts := splitVariantsF (combined.length + 1) 0 [] combined
    match parts.find? (fun p =>
        containsSub (lower p) "(ve)".toCodes || containsSub (lower p) "vegan".toCodes) with
    | some p => add_suffix (strip_suffixes (trim p)) "(Ve)".toCodes
    | none => add_suffix (strip_suffixes title) "(Ve)".toCodes

def FIXED_VEGAN_DESSERT : Str := "Gluten, Nuts, Soya, Sulphites".toCodes

def JACKET : Str := "Jacket potato and toppings (Ve)".toCodes

def SANDWICHES : Str := "Henbrook".toCodes ++ 8217 :: "s assorted sandwiches (Ve)".toCodes

/-- `build_vegan_context` (lines 410-512).  `none` models the Python
failure modes: `strip_suffixes` raising `TypeError` when the first
lunch-starter title is a `RichText` (written there by a previous
`build_standard_context` call), and `IndexError` when a dessert list is
empty (lines 445 and 481). -/
def build_vegan_context (day : Day) : Option Ctx :=
  let starters := ensure_len day.lunch.starters 2 stFiller
  match (starters.getD 0 stFiller).title, day.lunch.desserts, day.supper.desserts with
  | .plain t0, ld0 :: _, sd0 :: _ =>
    let st0all := (starters.getD 0 stFiller).allergens
    let lunch_soup_title := add_suffix (strip_suffixes t0) "(Ve)".toCodes
    let lunch_soup_all := remove_tokens_from_csv st0all
    let vmain := day.lunch.vegan_main
    let vegstd := day.lunch.veg_main
    let vRec := recoverVe vmain.title vmain.allergens
    let vegan_main_title := add_suffix (strip_suffixes vRec.1) "(Ve)".toCodes
    let vegan_main_desc : RT :=
      if trim vmain.description ≠ [] then .plain (trim vmain.description)
      else if trim vegstd.description ≠ [] then .yellow (trim vegstd.description)
      else .plain []
    let vegan_main_all := remove_tokens_from_csv vRec.2
    let opt_title := day.lunch.optional_sides.title
    let opt_all := remove_tokens_from_csv day.lunch.optional_sides.allergens
    let lunch_dessert_title : RT :=
      .yellow (sentence_case (strip_suffixes ld0.title) ++ " (Ve)".toCodes)
    let supper_soup_all := remove_tokens_from_csv st0all
    let sp_std := day.supper.specials
    let sp_veg := day.supper.vegan_special
    let vsRec := recoverVe sp_veg.title sp_veg.allergens
    let vs_title_raw :=
      if trim vsRec.1 = [] then
        add_suffix (strip_suffixes (pick_vegan_variant sp_std.title sp_std.description))
          "(Ve)".toCodes
      else vsRec.1
    let veg_special_title := add_suffix (strip_suffixes vs_title_raw) "(Ve)".toCodes
    let veg_special_desc : RT :=
      if trim sp_veg.description ≠ [] then .plain (trim sp_veg.description)
      else if trim sp_std.description ≠ [] then .yellow (trim sp_std.description)
      else .plain []
    let veg_special_all := remove_tokens_from_csv vsRec.2
    let supper_dessert_title : RT :=
      .yellow (sentence_case (strip_suffixes sd0.title) ++ " (Ve)".toCodes)
    some
      { header := ⟨day.header.theme, day.header.date⟩,
        days := ⟨day.header.theme, day.header.date⟩,
        lunch :=
          { starters := [⟨.plain lunch_soup_title, .plain [], lunch_soup_all⟩,
                         ⟨.plain [], .plain [], []⟩],
            mains := [⟨.plain JACKET, .plain [], []⟩,
                      ⟨.plain vegan_main_title, vegan_main_desc, vegan_main_all⟩],
            optional_sides := ⟨.plain opt_title, .plain [], opt_all⟩,
            desserts := [⟨lunch_dessert_title, .plain [], FIXED_VEGAN_DESSERT⟩,
                         ⟨.plain ICE_VE, .plain [], FIXED_VEGAN_DESSERT⟩] },
        supper :=
          { starter := ⟨.yellow SOUP_VE, .plain [], supper_soup_all⟩,
            selection := ⟨.plain SANDWICHES, .plain [], SELECTION_ALL⟩,
            specials := ⟨.plain veg_special_title, veg_special_desc, veg_special_all⟩,
            desserts := [⟨supper_dessert_title, .plain [], FIXED_VEGAN_DESSERT⟩,
                         ⟨.plain ICE_VE, .plain [], FIXED_VEGAN_DESSERT⟩] } }
  | _, _, _ => none

/-! ### The allergen table assembler
(`_collect_allergen_items_for_table`, lines 556-627) -/

/-- One assembled allergen-sheet row: `(str(title).strip(), columns,
is_heading)`. -/
structure Row where
  label : Str
  cats : Finset Str
  heading : Bool
deriving DecidableEq

/-- The `add` helper for a data row (lines 566-576): rows whose stripped
title is empty are dropped. -/
def addData (title : Str) (cats : Finset Str) : List Row :=
  if trim title = [] then [] else [⟨trim title, cats, false⟩]

def headingRow (title : Str) : List Row := [⟨title, ∅, true⟩]

/-- The fixed tick set of the Jacket-potato row (line 603). -/
def JACKET_SET : Finset Str :=
  insert "Celery".toCodes (insert "Sulphur".toCodes
    (insert "Cereals with Gluten".toCodes ({"Mustards".toCodes} : Finset Str)))

/-- `_collect_allergen_items_for_table` (lines 556-627).  `none` models
the `IndexError`/`TypeError` paths: a missing first lunch starter or
first dessert (lines 596, 612, 624), the starter/dessert lists of the
passed contexts being empty (lines 587, 590), or `add_suffix` applied to
a `RichText` starter title (line 596). -/
def collect_allergen_items_for_table (day : Day) (stdc vegc : Ctx) :
    Option (List Row) :=
  match day.lunch.starters, day.lunch.desserts, day.supper.desserts,
      stdc.lunch.desserts, stdc.supper.desserts with
  | st0 :: _, ld0 :: _, sd0 :: _, cd0 :: _, csd0 :: _ =>
    match st0.title with
    | .yellow _ => none
    | .plain t0 =>
      some <|
        headingRow "— Standard —".toCodes ++
        (day.lunch.starters.flatMap fun st =>
          addData (rtStr st.title) (parse_allergen_csv st.allergens)) ++
        addData day.lunch.veg_main.title (parse_allergen_csv day.lunch.veg_main.allergens) ++
        addData day.lunch.meat_main.title (parse_allergen_csv day.lunch.meat_main.allergens) ++
        addData day.lunch.optional_sides.title
          (parse_allergen_csv day.lunch.optional_sides.allergens) ++
        addData (rtStr cd0.title) (parse_allergen_csv cd0.allergens) ++
        addData SOUP_V (parse_allergen_csv day.supper.starter.allergens) ++
        addData (rtStr stdc.supper.specials.title)
          (parse_allergen_csv stdc.supper.specials.allergens) ++
        addData (rtStr csd0.title) (parse_allergen_csv csd0.allergens) ++
        headingRow "— Vegan —".toCodes ++
        addData (add_suffix t0 "(Ve)".toCodes) (scrub_vegan_csv_to_canonset st0.allergens) ++
        (vegc.lunch.mains.flatMap fun m =>
          if containsSub (lower (rtStr m.title)) "jacket".toCodes then
            addData JACKET JACKET_SET
          else addData (rtStr m.title) (scrub_vegan_csv_to_canonset m.allergens)) ++
        addData day.lunch.optional_sides.title
          (scrub_vegan_csv_to_canonset day.lunch.optional_sides.allergens) ++
        addData (sentence_case (strip_suffixes ld0.title) ++ " (Ve)".toCodes)
          (parse_allergen_csv FIXED_VEGAN_DESSERT) ++
        addData SOUP_VE (scrub_vegan_csv_to_canonset day.supper.starter.allergens) ++
        addData (add_suffix (strip_suffixes day.supper.vegan_special.title) "(Ve)".toCodes)
          (scrub_vegan_csv_to_canonset day.supper.vegan_special.allergens) ++
        addData (sentence_case (strip_suffixes sd0.title) ++ " (Ve)".toCodes)
          (parse_allergen_csv FIXED_VEGAN_DESSERT)
  | _, _, _, _, _ => none

/-- The per-day pipeline of `render_day_to_zip` (lines 706-734): build
the Standard context (which may write highlights into the day record),
then the Vegan context from the updated record, then the allergen rows. -/
def pipeline (day : Day) : Option (Day × Ctx × Ctx × List Row) :=
  match build_standard_context day with
  | none => none
  | some (day', stdc) =>
    match build_vegan_context day' with
    | none => none
    | some vegc =>
      match collect_allergen_items_for_table day' stdc vegc with
      | none => none
      | some rows => some (day', stdc, vegc, rows)

/-! ## Shared lemmas about the text primitives -/

theorem dropWhile_dropWhile (p : Nat → Bool) (l : Str) :
    (l.dropWhile p).dropWhile p = l.dropWhile p := by
  induction l with
  | nil => rfl
  | cons c r ih =>
    by_cases h : p c
    · simp [List.dropWhile_cons, h, ih]
    · simp [List.dropWhile_cons, h]

theorem trimLeft_trimLeft (l : Str) : trimLeft (trimLeft l) = trimLeft l :=
  dropWhile_dropWhile _ l

theorem trimRight_trimRight (l : Str) : trimRight (trimRight l) = trimRight l := by
  simp [trimRight, dropWhile_dropWhile]

theorem trimRight_cons (c : Nat) (r : Str) :
    trimRight (c :: r) =
      if trimRight r = [] then (if isSpaceC c then [] else [c]) else c :: trimRight r := by
  have h : (c :: r).reverse = r.reverse ++ [c] := by simp
  rw [trimRight, h, List.dropWhile_append]
  by_cases he : trimRight r = []
  · have h1 : (r.reverse.dropWhile isSpaceC).isEmpty = true := by
      simp only [List.isEmpty_eq_true]
      simpa [trimRight] using congrArg List.reverse he
    rw [if_pos he]
    simp only [h1, if_true]
    by_cases hc : isSpaceC c <;> simp [List.dropWhile_cons, hc]
  · have h1 : (r.reverse.dropWhile isSpaceC).isEmpty = false := by
      simp only [List.isEmpty_eq_false, ne_eq]
      intro hh
      exact he (by simp [trimRight, hh])
    rw [if_neg he]
    simp only [h1, Bool.false_eq_true, if_false]
    simp [trimRight]

theorem trimRight_trimLeft_comm (l : Str) :
    trimRight (trimLeft l) = trimLeft (trimRight l) := by
  induction l with
  | nil => rfl
  | cons c r ih =>
    by_cases h : isSpaceC c
    · rw [show trimLeft (c :: r) = trimLeft r by simp [trimLeft, List.dropWhile_cons, h], ih,
        trimRight_cons]
      by_cases he : trimRight r = []
      · simp [he, h, trimLeft]
      · simp [he, trimLeft, List.dropWhile_cons, h]
    · rw [show trimLeft (c :: r) = c :: r by simp [trimLeft, List.dropWhile_cons, h],
        trimRight_cons]
      by_cases he : trimRight r = []
      · simp [he, h, trimLeft, List.dropWhile_cons]
      · simp [he, h, trimLeft, List.dropWhile_cons]

theorem trim_trim (l : Str) : trim (trim l) = trim l := by
  rw [trim, trim, trimRight_trimLeft_comm, trimLeft_trimLeft, trimRight_trimRight]

theorem trimLeft_trim (l : Str) : trimLeft (trim l) = trim l := by
  rw [trim, trimLeft_trimLeft]

theorem trimRight_trim (l : Str) : trimRight (trim l) = trim l := by
  rw [trim, trimRight_trimLeft_comm, trimRight_trimRight]

theorem trimRight_snoc_keep {a : Nat} (h : isSpaceC a = false) (x : Str) :
    trimRight (x ++ [a]) = x ++ [a] := by
  simp [trimRight, List.dropWhile_cons, h]

theorem trimRight_snoc_space {a : Nat} (h : isSpaceC a = true) (x : Str) :
    trimRight (x ++ [a]) = trimRight x := by
  simp [trimRight, List.dropWhile_cons, h]

theorem trimLeft_append_of_ne {l : Str} (h : trimLeft l ≠ []) (y : Str) :
    trimLeft (l ++ y) = trimLeft l ++ y := by
  have h1 : (l.dropWhile isSpaceC).isEmpty = false := by
    simp only [List.isEmpty_eq_false, ne_eq]
    exact h
  rw [trimLeft, List.dropWhile_append, h1]
  simp [trimLeft]

theorem strip_suffixes_trimmed (s : Str) : trim (strip_suffixes s) = strip_suffixes s := by
  rw [strip_suffixes, trim_trim]

/-! ## Claim C7 -/

/-- Claim C7: for every non-empty string `s`,
`strip_suffixes (add_suffix s "(Ve)")` equals `strip_suffixes s` trimmed
(round trip on the tag only). -/
theorem c7_round_trip (s : Str) (_h : s ≠ []) :
    strip_suffixes (add_suffix s tagVe) = trim (strip_suffixes s) := by
  have htr : trim (strip_suffixes s) = strip_suffixes s := strip_suffixes_trimmed s
  rw [htr]
  set t := strip_suffixes s with ht
  have htagv : tagVe = [40, 86, 101, 41] := by decide
  by_cases h0 : t = []
  · rw [add_suffix, ← ht, h0]
    decide
  · have hsplit : t ++ 32 :: tagVe = (t ++ [32, 40, 86, 101]) ++ [41] := by
      rw [htagv]; simp
    have h1 : trimRight (t ++ 32 :: tagVe) = t ++ 32 :: tagVe := by
      rw [hsplit]; exact trimRight_snoc_keep (by decide) _
    have h2 : trimLeft t = t := by rw [ht, strip_suffixes, trimLeft_trim]
    have h3 : trimRight t = t := by rw [ht, strip_suffixes, trimRight_trim]
    have hadd : add_suffix s tagVe = t ++ 32 :: tagVe := by
      rw [add_suffix, ← ht, trim, h1, trimLeft_append_of_ne (by rw [h2]; exact h0), h2]
    rw [hadd, strip_suffixes, remove_tag]
    have hsuf : tagVe <:+ trimRight (t ++ 32 :: tagVe) := by
      rw [h1, htagv]
      exact ⟨t ++ [32], by simp⟩
    rw [if_pos hsuf, h1]
    have hlen : (t ++ 32 :: tagVe).length - 4 = t.length + 1 := by
      rw [htagv]; simp
    have htake : (t ++ 32 :: tagVe).take (t.length + 1) = t ++ [32] := by
      rw [htagv, show (32 : Nat) :: [40, 86, 101, 41] = [32] ++ [40, 86, 101, 41] by rfl,
        ← List.append_assoc]
      have := @List.take_append Nat (t ++ [32]) [40, 86, 101, 41] 0
      simpa using this
    rw [hlen, htake, trimRight_snoc_space (by decide), h3, htr]

/-- Witness for C7 at `s = "Soup (V)"`. -/
theorem c7_round_trip_witness :
    strip_suffixes (add_suffix "Soup (V)".toCodes tagVe) =
      trim (strip_suffixes "Soup (V)".toCodes) :=
  c7_round_trip _ (by decide)

/-! ## Claim C8 -/

/-- The spec's description of `sentenceCase`, stated recursively: walk to
the first alphabetic character of the trimmed input, uppercase it,
lowercase the rest; if there is none, the trimmed input is returned. -/
def scSpecAux : Str → Str
  | [] => []
  | c :: r => if isAlphaC c then upperC c :: r.map lowerC else c :: scSpecAux r

theorem scSpecAux_eq (t : Str) :
    (if t = [] then t
     else
       match t.findIdx? isAlphaC with
       | none => t
       | some i => t.take i ++ upperC (t.getD i 0) :: (t.drop (i + 1)).map lowerC) =
      scSpecAux t := by
  induction t with
  | nil => simp [scSpecAux]
  | cons c r ih =>
    by_cases h : isAlphaC c
    · simp [scSpecAux, h, List.findIdx?_cons]
    · simp only [scSpecAux, h, if_false, List.findIdx?_cons, Bool.false_eq_true,
        reduceCtorEq, List.findIdx?_succ]
      cases hr : r.findIdx? isAlphaC with
      | none =>
        have hr' : scSpecAux r = r := by
          rw [← ih]
          by_cases hre : r = [] <;> simp [hre, hr]
        simp [hr', Option.map_none]
      | some j =>
        have hre : r ≠ [] := by
          intro he; rw [he] at hr; simp at hr
        have hr' : scSpecAux r =
            r.take j ++ upperC (r.getD j 0) :: (r.drop (j + 1)).map lowerC := by
          rw [← ih]; simp [hre, hr]
        simp [hr', Option.map_some]

/-- Claim C8 (corrected): `sentence_case` first trims its input; on the
trimmed string it preserves the leading non-alphabetic characters,
uppercases the first alphabetic character and lowercases the rest
(whitespace-only input therefore comes back empty, not unchanged); and
`sentence_case "BAKED apple crumble" = "Baked apple crumble"`. -/
theorem c8_sentence_case_amended :
    (∀ s : Str, sentence_case s = scSpecAux (trim s)) ∧
      sentence_case "BAKED apple crumble".toCodes = "Baked apple crumble".toCodes := by
  refine ⟨fun s => ?_, by decide⟩
  rw [sentence_case]
  exact scSpecAux_eq (trim s)

/-- Counterexample for C8 as stated: whitespace-only input is not
returned unchanged (the code strips it to the empty string). -/
theorem c8_sentence_case_counterexample :
    ¬ sentence_case [32] = [32] := by decide

/-! ## Claim C9 -/

/-- Claim C9 (corrected): `to_iso` tries `%d/%m/%Y`, `%d/%m/%y`, ISO in
that order on the stripped input, the first successful parse wins and is
returned as the ISO date, and an unparseable date string is returned
stripped of surrounding whitespace (not verbatim), without any error. -/
theorem c9_to_iso_amended (s : Str) :
    (parseFmt matchDMY4 (trim s) = none → parseFmt matchDMY2 (trim s) = none →
      parseFmt matchYMD (trim s) = none → to_iso s = trim s) ∧
    (∀ y m d, parseFmt matchDMY4 (trim s) = some (y, m, d) → to_iso s = iso_of y m d) ∧
    (∀ y m d, parseFmt matchDMY4 (trim s) = none →
      parseFmt matchDMY2 (trim s) = some (y, m, d) → to_iso s = iso_of y m d) ∧
    (∀ y m d, parseFmt matchDMY4 (trim s) = none → parseFmt matchDMY2 (trim s) = none →
      parseFmt matchYMD (trim s) = some (y, m, d) → to_iso s = iso_of y m d) := by
  refine ⟨fun h1 h2 h3 => by simp [to_iso, h1, h2, h3],
    fun y m d h1 => by simp [to_iso, h1],
    fun y m d h1 h2 => by simp [to_iso, h1, h2],
    fun y m d h1 h2 h3 => by simp [to_iso, h1, h2, h3]⟩

/-- Counterexample for C9 as stated: an unparseable date is not returned
verbatim — surrounding whitespace is stripped. -/
theorem c9_to_iso_counterexample :
    ¬ to_iso " menu week ".toCodes = " menu week ".toCodes := by decide

/-- Witness for C9: a parseable date, and an unparseable one returned
stripped. -/
theorem c9_to_iso_witness :
    to_iso "03/04/2025".toCodes = iso_of 2025 4 3 ∧
      to_iso " menu week ".toCodes = trim " menu week ".toCodes :=
  ⟨(c9_to_iso_amended _).2.1 2025 4 3 (by decide),
   (c9_to_iso_amended _).1 (by decide) (by decide) (by decide)⟩

/-! ## Claim C6 -/

/-- Claim C6: for every input grid, the week parser returns exactly 7 day
records, and every returned day record has exactly 2 lunch starters,
2 lunch desserts and 2 supper desserts. -/
theorem c6_week_shape (cell : Nat → Nat → Str) :
    (parse_week cell).length = 7 ∧
      ((parse_week cell).map fun d =>
        (d.lunch.starters.length, d.lunch.desserts.length, d.supper.desserts.length)) =
        List.replicate 7 (2, 2, 2) :=
  ⟨rfl, rfl⟩

/-! ## Claim C10 -/

def emptySrcItem : SrcItem := ⟨[], [], []⟩

/-- Claim C10: in every day record produced by the week parser, lunch
dessert #2 is titled `"Ice creams / sorbet (V)"` and supper dessert #2 is
titled `"Selection of vegan ice creams or sorbet with seasonal fruits
(Ve)"`, whatever the grid cells contain; only the allergens of those two
slots come from the grid (rows 10 and 17 of the day's column). -/
theorem c10_fixed_dessert_titles (cell : Nat → Nat → Str) :
    ((parse_week cell).map fun d =>
      ((d.lunch.desserts.getD 1 emptySrcItem).title,
        (d.supper.desserts.getD 1 emptySrcItem).title)) =
      List.replicate 7 (ICE_V, ICE_VE) ∧
    ((parse_week cell).map fun d =>
      ((d.lunch.desserts.getD 1 emptySrcItem).allergens,
        (d.supper.desserts.getD 1 emptySrcItem).allergens)) =
      (List.range 7).map fun i =>
        ((parse_title_desc_allergens (cell 10 (i + 1))).allergens,
          (parse_title_desc_allergens (cell 17 (i + 1))).allergens) :=
  ⟨rfl, rfl⟩

/-! ## Claim C2 -/

/-- A day whose first lunch starter is titled "Chef’s choice soup" — the
routine content the supper rows assume exists every day. -/
def c2day : Day :=
  { header := ⟨[], [], [], []⟩,
    lunch :=
      { starters := [⟨.plain CHEFS_SOUP, "Celery".toCodes⟩, ⟨.plain [], []⟩],
        veg_main := emptySrcItem,
        meat_main := emptySrcItem,
        vegan_main := emptySrcItem,
        optional_sides := emptySrcItem,
        desserts := [emptySrcItem, emptySrcItem] },
    supper :=
      { starter := ⟨CHEFS_SOUP, [], []⟩,
        selection := ⟨[], [], SELECTION_ALL⟩,
        specials := emptySrcItem,
        vegan_special := emptySrcItem,
        desserts := [emptySrcItem, emptySrcItem] } }

/-- Claim C2 is violated by the code (code bug): `build_standard_context`
writes a highlighted `RichText` over the first lunch-starter title inside
the day record (the `ensure_len` copy shares element dicts with the
source list), so the `DayRecord` is mutated; the subsequent
`build_vegan_context` call on the mutated record then fails
(`strip_suffixes` cannot take a `RichText`), and the whole per-day
pipeline aborts. -/
theorem c2_standard_builder_mutates :
    ((build_standard_context c2day).map fun p =>
        p.1.lunch.starters.map (fun st => st.title)) =
      some [.yellow CHEFS_SOUP, .plain []] ∧
    ((build_standard_context c2day).map fun p => decide (p.1 = c2day)) = some false ∧
    ((build_standard_context c2day).bind fun p => build_vegan_context p.1) = none ∧
    pipeline c2day = none := by
  refine ⟨by decide, by decide, by decide, by decide⟩

/-! ## Claim C1 -/

theorem scanFirst_some {f : Nat → Bool} :
    ∀ {fuel i p}, scanFirst f i fuel = some p →
      f p = true ∧ i ≤ p ∧ ∀ q, i ≤ q → q < p → f q = false := by
  intro fuel
  induction fuel with
  | zero => intro i p h; simp [scanFirst] at h
  | succ fuel ih =>
    intro i p h
    rw [scanFirst] at h
    by_cases hf : f i
    · rw [if_pos hf] at h
      obtain rfl : i = p := by simpa using h
      exact ⟨hf, Nat.le_refl _, fun q h1 h2 => absurd (Nat.lt_of_le_of_lt h1 h2) (Nat.lt_irrefl _)⟩
    · rw [if_neg hf] at h
      obtain ⟨hp, hip, hmin⟩ := ih h
      refine ⟨hp, Nat.le_trans (Nat.le_succ _) hip, fun q h1 h2 => ?_⟩
      rcases Nat.eq_or_lt_of_le h1 with h3 | h3
      · simpa [← h3] using Bool.of_not_eq_true hf
      · exact hmin q h3 h2

/-- Claim C1: `parse_title_desc_allergens` splits a raw cell at the
maximal match of `ALLERGEN_TAIL_RE` (the match chosen by `re.search`
contains every other match of the regex, all of which end at the end of
the string), taking everything from the match as the allergens tail; on
the cell `"Fish pie\nWith parsley sauce\nFish, Milk, Gluten"` it yields
title `"Fish pie"`, description `"With parsley sauce"`, allergens
`"Fish, Milk, Gluten"`. -/
theorem c1_parse_cell :
    parse_title_desc_allergens "Fish pie\nWith parsley sauce\nFish, Milk, Gluten".toCodes =
      ⟨"Fish pie".toCodes, "With parsley sauce".toCodes, "Fish, Milk, Gluten".toCodes⟩ ∧
    ∀ l p, tail_search l = some p →
      matchAt l p = true ∧ ∀ q, matchAt l q = true → p ≤ q := by
  refine ⟨by decide, fun l p h => ?_⟩
  obtain ⟨hp, -, hmin⟩ := scanFirst_some h
  refine ⟨hp, fun q hq => ?_⟩
  by_contra hlt
  have : matchAt l q = false := hmin q (Nat.zero_le _) (Nat.lt_of_not_le hlt)
  rw [hq] at this
  simp at this

/-- Witness for C1: on `"Fish pie\nFish, Milk"` the tail is chosen at the
start of the last line (position 9), which is at or left of the match at
`"Milk"` (position 15). -/
theorem c1_parse_cell_witness :
    matchAt "Fish pie\nFish, Milk".toCodes 9 = true ∧ 9 ≤ 15 := by
  have h := c1_parse_cell.2 "Fish pie\nFish, Milk".toCodes 9 (by decide)
  exact ⟨h.1, h.2 15 (by decide)⟩

/-! ## More shared lemmas: non-emptiness of trimmed labels, infixes -/

theorem mem_trim {c : Nat} {l : Str} (hc : c ∈ l) (hs : isSpaceC c = false) :
    c ∈ trim l := by
  have key : ∀ (y : Str), c ∈ y → c ∈ y.dropWhile isSpaceC := by
    intro y hy
    have hsplit := List.takeWhile_append_dropWhile isSpaceC y
    rw [← hsplit] at hy
    rcases List.mem_append.mp hy with h1 | h1
    · exact absurd (List.mem_takeWhile_imp h1) (by simp [hs])
    · exact h1
  have h1 : c ∈ trimRight l := by
    rw [trimRight, List.mem_reverse]
    exact key _ (List.mem_reverse.mpr hc)
  exact key _ h1

theorem trim_ne_nil_of_mem {c : Nat} {l : Str} (hc : c ∈ l) (hs : isSpaceC c = false) :
    trim l ≠ [] := by
  intro h
  have := mem_trim hc hs
  rw [h] at this
  exact absurd this (List.not_mem_nil c)

/-- A label that ends in the tag `" (Ve)"` (or contains any `)` at all)
never strips to the empty string, so its row is always emitted. -/
theorem trim_append_tagVe_ne_nil (x : Str) : trim (x ++ " (Ve)".toCodes) ≠ [] :=
  trim_ne_nil_of_mem (c := 41) (List.mem_append.mpr (Or.inr (by decide))) (by decide)

theorem add_suffix_trim_ne_nil (s : Str) : trim (add_suffix s tagVe) ≠ [] := by
  rw [add_suffix, trim_trim]
  exact trim_ne_nil_of_mem (c := 41)
    (List.mem_append.mpr (Or.inr (by decide))) (by decide)

theorem infix_map (f : Nat → Nat) {l₁ l₂ : Str} (h : l₁ <:+: l₂) :
    l₁.map f <:+: l₂.map f := by
  obtain ⟨s, t, hst⟩ := h
  exact ⟨s.map f, t.map f, by rw [← hst]; simp⟩

theorem drop_take_infix_self (a : Str) (p e : Nat) : (a.take e).drop p <:+: a :=
  List.IsInfix.trans (List.IsSuffix.isInfix (List.drop_suffix _ _))
    (List.IsPrefix.isInfix (List.take_prefix _ _))

theorem take_drop_infix_self (a : Str) (q k : Nat) : (a.drop q).take k <:+: a :=
  List.IsInfix.trans (List.IsPrefix.isInfix (List.take_prefix _ _))
    (List.IsSuffix.isInfix (List.drop_suffix _ _))

/-! ## Claim C5 -/

def emptyCtxItem : CtxItem := ⟨.plain [], .plain [], []⟩

/-- Claim C5: when the vegan-main allergens cell holds an
`alphabetic…(ve)` phrase (the regex of line 427 finds a group, an infix
of the allergens text) and the title is effectively empty (fewer than
2 characters after suffix stripping), the recovery of lines 426-430
promotes that phrase to the title; in particular a vegan-main row
`{title: "", allergens: "Curry (Ve), Mustard"}` yields the context title
`"Curry (Ve)"` with allergens `"Mustard"`, category-resolved to
`{Mustards}`. -/
theorem c5_title_recovery :
    (∀ t a p e, extractVe a = some (p, e) → (strip_suffixes t).length < 2 →
      (recoverVe t a).1 = trim ((a.take e).drop p) ∧ (a.take e).drop p <:+: a) ∧
    (∀ (d : Day) (c : Ctx), d.lunch.vegan_main.title = [] →
      d.lunch.vegan_main.allergens = "Curry (Ve), Mustard".toCodes →
      build_vegan_context d = some c →
      (c.lunch.mains.getD 1 emptyCtxItem).title = .plain "Curry (Ve)".toCodes ∧
      (c.lunch.mains.getD 1 emptyCtxItem).allergens = "Mustard".toCodes ∧
      scrub_vegan_csv_to_canonset "Mustard".toCodes = {"Mustards".toCodes}) := by
  constructor
  · intro t a p e hext hlen
    refine ⟨?_, drop_take_infix_self a p e⟩
    have hcond : (containsSub (lower a) "(ve".toCodes || hasAlphaVe a) = true := by
      rw [extractVe] at hext
      cases hscan : scanFirst (fun p => isAlphaC (a.getD p 0) && (veEndFrom a (p + 1)).isSome)
          0 (a.length + 1) with
      | none => rw [hscan] at hext; exact absurd hext (by simp)
      | some p0 =>
        obtain ⟨hp0, -, -⟩ := scanFirst_some hscan
        rw [Bool.and_eq_true, Option.isSome_iff_exists] at hp0
        obtain ⟨-, q, hveq⟩ := hp0
        obtain ⟨hq, -, -⟩ := scanFirst_some hveq
        have hseg : lower ((a.drop q).take 4) = VE_TAG := by
          simp only [Bool.and_eq_true, decide_eq_true_eq] at hq
          exact hq.2
        have hinf : "(ve".toCodes <:+: lower a := by
          have h1 : lower ((a.drop q).take 4) <:+: lower a :=
            infix_map lowerC (take_drop_infix_self a q 4)
          rw [hseg] at h1
          have h2 : "(ve".toCodes <:+: VE_TAG := ⟨[], [41], by decide⟩
          exact List.IsInfix.trans h2 h1
        rw [Bool.or_eq_true]
        exact Or.inl (by rw [containsSub]; exact decide_eq_true hinf)
    rw [recoverVe, if_pos hcond, hext]
    simp [hlen]
  · intro d c ht ha hsome
    unfold build_vegan_context at hsome
    dsimp only [] at hsome
    split at hsome
    · rw [Option.some_inj] at hsome
      subst hsome
      refine ⟨?_, ?_, by decide⟩
      · dsimp only [List.getD_cons_succ, List.getD_cons_zero]
        rw [ht, ha]
        decide
      · dsimp only [List.getD_cons_succ, List.getD_cons_zero]
        rw [ht, ha]
        decide
    · exact absurd hsome (by simp)

/-- A day whose vegan-main row carries its dish name in the allergens
cell, for the C5 witness. -/
def c5day : Day :=
  { header := ⟨[], [], [], []⟩,
    lunch :=
      { starters := [⟨.plain "Soup".toCodes, []⟩, ⟨.plain [], []⟩],
        veg_main := emptySrcItem,
        meat_main := emptySrcItem,
        vegan_main := ⟨[], [], "Curry (Ve), Mustard".toCodes⟩,
        optional_sides := emptySrcItem,
        desserts := [emptySrcItem, emptySrcItem] },
    supper :=
      { starter := ⟨CHEFS_SOUP, [], []⟩,
        selection := ⟨[], [], SELECTION_ALL⟩,
        specials := emptySrcItem,
        vegan_special := emptySrcItem,
        desserts := [emptySrcItem, emptySrcItem] } }

/-- Witness for C5 at `c5day`. -/
theorem c5_title_recovery_witness :
    ((build_vegan_context c5day).map fun c =>
      ((c.lunch.mains.getD 1 emptyCtxItem).title,
        (c.lunch.mains.getD 1 emptyCtxItem).allergens)) =
      some (.plain "Curry (Ve)".toCodes, "Mustard".toCodes) := by
  have hs : (build_vegan_context c5day).isSome := by decide
  have hc := Option.some_get hs
  obtain ⟨h1, h2, -⟩ :=
    c5_title_recovery.2 c5day ((build_vegan_context c5day).get hs) (by decide) (by decide)
      hc.symm
  refine Option.map_eq_some'.mpr ⟨_, hc.symm, ?_⟩
  rw [h1, h2]

/-! ## Claim C4 -/

def emptyRow : Row := ⟨[], ∅, false⟩

/-- The canonical category set {Cereals with Gluten, Nuts from Trees,
Soybeans, Sulphur} that the fixed string `"Gluten, Nuts, Soya,
Sulphites"` resolves to. -/
def VEGAN_DESSERT_SET : Finset Str :=
  insert "Cereals with Gluten".toCodes (insert "Nuts from Trees".toCodes
    (insert "Soybeans".toCodes ({"Sulphur".toCodes} : Finset Str)))

/-- Both vegan dessert slots of both meals carry the fixed allergen
string in the vegan context. -/
theorem bvc_desserts (d : Day) (c : Ctx) (h : build_vegan_context d = some c) :
    c.lunch.desserts.map (fun it => it.allergens) =
      [FIXED_VEGAN_DESSERT, FIXED_VEGAN_DESSERT] ∧
    c.supper.desserts.map (fun it => it.allergens) =
      [FIXED_VEGAN_DESSERT, FIXED_VEGAN_DESSERT] := by
  unfold build_vegan_context at h
  dsimp only [] at h
  split at h
  · rw [Option.some_inj] at h
    subst h
    exact ⟨rfl, rfl⟩
  · exact absurd h (by simp)

/-- Shape of a row list ending in four always-emitted data rows. -/
theorem rows_tail4 {B : List Row} {t4 t5 t6 t7 : Str} {c4 c5 c6 c7 : Finset Str}
    {rows : List Row}
    (hrows : rows =
      B ++ addData t4 c4 ++ addData t5 c5 ++ addData t6 c6 ++ addData t7 c7)
    (h4 : trim t4 ≠ []) (h5 : trim t5 ≠ []) (h6 : trim t6 ≠ []) (h7 : trim t7 ≠ []) :
    3 < rows.length ∧ (rows.reverse.getD 0 emptyRow).cats = c7 ∧
      (rows.reverse.getD 3 emptyRow).cats = c4 := by
  subst hrows
  simp only [addData]
  rw [if_neg h4, if_neg h5, if_neg h6, if_neg h7]
  refine ⟨by simp, ?_, ?_⟩ <;>
    simp [List.reverse_append, List.getD_cons_zero, List.getD_cons_succ]

/-- The assembled table always ends with the four vegan rows: lunch
dessert #1 (fixed set), the single supper soup line, the supper special,
and supper dessert #1 (fixed set); in particular the two vegan dessert
rows sit at reverse positions 3 and 0 with the fixed category set. -/
theorem collect_rows_tail (day : Day) (stdc vegc : Ctx) (rows : List Row)
    (h : collect_allergen_items_for_table day stdc vegc = some rows) :
    3 < rows.length ∧
      (rows.reverse.getD 0 emptyRow).cats = parse_allergen_csv FIXED_VEGAN_DESSERT ∧
      (rows.reverse.getD 3 emptyRow).cats = parse_allergen_csv FIXED_VEGAN_DESSERT := by
  unfold collect_allergen_items_for_table at h
  split at h
  · split at h
    · exact absurd h (by simp)
    · rw [Option.some_inj] at h
      exact rows_tail4 h.symm (trim_append_tagVe_ne_nil _) (by decide)
        (add_suffix_trim_ne_nil _) (trim_append_tagVe_ne_nil _)
  · exact absurd h (by simp)

/-- Claim C4: for every source day processed by the pipeline, the Vegan
context gives all four dessert slots the fixed allergen string
`"Gluten, Nuts, Soya, Sulphites"` regardless of the source dessert
allergens, and the Allergen Table's two vegan dessert rows resolve to
exactly {Cereals with Gluten, Nuts from Trees, Soybeans, Sulphur} (the
claim's {Gluten, Nuts, Soybeans, Sulphur} in canonical labels). -/
theorem c4_fixed_vegan_dessert (d d' : Day) (s v : Ctx) (rows : List Row)
    (h : pipeline d = some (d', s, v, rows)) :
    v.lunch.desserts.map (fun it => it.allergens) =
      [FIXED_VEGAN_DESSERT, FIXED_VEGAN_DESSERT] ∧
    v.supper.desserts.map (fun it => it.allergens) =
      [FIXED_VEGAN_DESSERT, FIXED_VEGAN_DESSERT] ∧
    3 < rows.length ∧
    (rows.reverse.getD 0 emptyRow).cats = VEGAN_DESSERT_SET ∧
    (rows.reverse.getD 3 emptyRow).cats = VEGAN_DESSERT_SET := by
  unfold pipeline at h
  split at h
  · exact absurd h (by simp)
  · rename_i day0 stdc0 heq1
    split at h
    · exact absurd h (by simp)
    · rename_i vegc0 heq2
      split at h
      · exact absurd h (by simp)
      · rename_i rows0 heq3
        rw [Option.some_inj, Prod.mk.injEq, Prod.mk.injEq, Prod.mk.injEq] at h
        obtain ⟨rfl, rfl, rfl, rfl⟩ := h
        obtain ⟨hv1, hv2⟩ := bvc_desserts _ _ heq2
        obtain ⟨hl, hr0, hr3⟩ := collect_rows_tail _ _ _ _ heq3
        have hset : parse_allergen_csv FIXED_VEGAN_DESSERT = VEGAN_DESSERT_SET := by decide
        rw [hset] at hr0 hr3
        exact ⟨hv1, hv2, hl, hr0, hr3⟩

/-- A day whose source dessert rows carry the decidedly non-vegan
allergens `"Milk, Fish"`, for the C4 witness. -/
def c4day : Day :=
  { header := ⟨[], [], [], []⟩,
    lunch :=
      { starters := [⟨.plain "Soup".toCodes, "Milk".toCodes⟩, ⟨.plain [], []⟩],
        veg_main := emptySrcItem,
        meat_main := emptySrcItem,
        vegan_main := emptySrcItem,
        optional_sides := emptySrcItem,
        desserts := [⟨"Trifle".toCodes, [], "Milk, Fish".toCodes⟩, ⟨ICE_V, [], "Milk".toCodes⟩] },
    supper :=
      { starter := ⟨CHEFS_SOUP, [], "Milk".toCodes⟩,
        selection := ⟨[], [], SELECTION_ALL⟩,
        specials := emptySrcItem,
        vegan_special := emptySrcItem,
        desserts := [⟨"Custard tart".toCodes, [], "Milk, Fish".toCodes⟩,
                     ⟨ICE_VE, [], "Milk".toCodes⟩] } }

/-- Witness for C4 at `c4day` (source desserts say "Milk, Fish"; the
vegan projections ignore it). -/
theorem c4_fixed_vegan_dessert_witness :
    ((pipeline c4day).map fun t =>
      (t.2.2.1.lunch.desserts.map (fun it => it.allergens),
        (t.2.2.2.reverse.getD 0 emptyRow).cats,
        (t.2.2.2.reverse.getD 3 emptyRow).cats)) =
      some ([FIXED_VEGAN_DESSERT, FIXED_VEGAN_DESSERT],
        VEGAN_DESSERT_SET, VEGAN_DESSERT_SET) := by
  have hs : (pipeline c4day).isSome := by decide
  cases hp : pipeline c4day with
  | none => rw [hp] at hs; simp at hs
  | some t =>
    have htup : pipeline c4day = some (t.1, t.2.1, t.2.2.1, t.2.2.2) := by rw [hp]
    obtain ⟨h1, -, -, h4, h5⟩ :=
      c4_fixed_vegan_dessert c4day t.1 t.2.1 t.2.2.1 t.2.2.2 htup
    refine Option.map_eq_some'.mpr ⟨t, rfl, ?_⟩
    dsimp only
    rw [h1, h4, h5]

/-! ## Claim C3 -/

/-- Case- and apostrophe-normalisation of a label (lowercase, right
single quotation mark to apostrophe), as `_is_chefs_choice_soup` does. -/
def normC (c : Nat) : Nat := aposFix (lowerC c)

def normPh (l : Str) : Str := l.map normC

/-- `"chef's choice soup"`, normalised (39 is the apostrophe). -/
def PHRASE : Str := "chef".toCodes ++ 39 :: "s choice soup".toCodes

/-- `"chef's choice soup (ve)"`, normalised. -/
def PHRASE_VE : Str := "chef".toCodes ++ 39 :: "s choice soup (ve)".toCodes

/-- Does this table row's label contain the vegan supper-soup phrase
`"Chef's choice soup (Ve)"`, up to case and apostrophe style? -/
def soupRow (r : Row) : Bool := containsSub (normPh r.label) PHRASE_VE

/-- The claim's phrase verbatim: `"Chef's choice soup (Ve)"` with an
ASCII apostrophe, as written in the specification. -/
def CLAIM_SOUP_VE : Str := "Chef".toCodes ++ 39 :: "s choice soup (Ve)".toCodes

theorem infix_append_cases {α : Type} {l A B : List α} (h : l <:+: A ++ B) :
    l <:+: A ∨ l <:+: B ∨ ∃ x y, l = x ++ y ∧ x <:+ A ∧ y <+: B := by
  obtain ⟨s, t, hst⟩ := h
  rcases List.append_eq_append_iff.mp hst with ⟨w, hw1, hw2⟩ | ⟨w, hw1, hw2⟩
  · exact Or.inl ⟨s, w, hw1.symm⟩
  · rcases List.append_eq_append_iff.mp hw1 with ⟨u, hu1, hu2⟩ | ⟨u, hu1, hu2⟩
    · exact Or.inr (Or.inr ⟨u, w, hu2, ⟨s, hu1.symm⟩, ⟨t, hw2.symm⟩⟩)
    · refine Or.inr (Or.inl ⟨u, t, ?_⟩)
      rw [hw2, hu2]

theorem phrase_append_ve : PHRASE ++ " (ve)".toCodes = PHRASE_VE := by decide

theorem phrase_prefix_ve : PHRASE <+: PHRASE_VE := ⟨" (ve)".toCodes, phrase_append_ve⟩

/-- The straddle analysis: a string whose normalisation does not contain
the soup phrase, followed by a short `" (v…)"` tag, cannot contain the
full soup-ve phrase. -/
theorem not_phraseVe_append {A B : Str} (hA : ¬ PHRASE <:+: A)
    (hB : ∀ y ∈ PHRASE_VE.tails, y <+: B → y = [] ∨ y = " (ve)".toCodes)
    (hlen : B.length < PHRASE_VE.length) :
    ¬ PHRASE_VE <:+: A ++ B := by
  intro h
  rcases infix_append_cases h with h1 | h1 | ⟨x, y, hxy, hx, hy⟩
  · exact hA (List.IsInfix.trans (List.IsPrefix.isInfix phrase_prefix_ve) h1)
  · exact absurd (List.IsInfix.length_le h1) (by omega)
  · have hytail : y ∈ PHRASE_VE.tails := List.mem_tails y PHRASE_VE |>.mpr ⟨x, hxy.symm⟩
    rcases hB y hytail hy with rfl | rfl
    · rw [List.append_nil] at hxy
      exact hA (List.IsInfix.trans (List.IsPrefix.isInfix phrase_prefix_ve)
        (List.IsSuffix.isInfix (hxy ▸ hx)))
    · have hxp : x = PHRASE :=
        List.append_cancel_right (by rw [← hxy, phrase_append_ve])
      exact hA (List.IsSuffix.isInfix (hxp ▸ hx))

theorem trimLeft_suffix_self (l : Str) : trimLeft l <:+ l := by
  refine ⟨l.takeWhile isSpaceC, ?_⟩
  rw [trimLeft]
  exact List.takeWhile_append_dropWhile isSpaceC l

theorem trimRight_prefix_self (l : Str) : trimRight l <+: l := by
  refine ⟨(l.reverse.takeWhile isSpaceC).reverse, ?_⟩
  rw [trimRight, ← List.reverse_append, List.takeWhile_append_dropWhile, List.reverse_reverse]

theorem trim_infix_self (l : Str) : trim l <:+: l :=
  List.IsInfix.trans (List.IsSuffix.isInfix (trimLeft_suffix_self _))
    (List.IsPrefix.isInfix (trimRight_prefix_self _))

theorem remove_tag_prefix_self (l : Str) : remove_tag l <+: l := by
  rw [remove_tag]
  split
  · exact List.IsPrefix.trans (List.IsPrefix.trans (trimRight_prefix_self _)
      (List.take_prefix _ _)) (trimRight_prefix_self _)
  · split
    · exact List.IsPrefix.trans (List.IsPrefix.trans (trimRight_prefix_self _)
        (List.take_prefix _ _)) (trimRight_prefix_self _)
    · exact List.prefix_refl l

theorem strip_suffixes_infix_self (l : Str) : strip_suffixes l <:+: l :=
  List.IsInfix.trans (trim_infix_self _) (List.IsPrefix.isInfix (remove_tag_prefix_self l))

theorem normC_upperC (c : Nat) : normC (upperC c) = normC c := by
  unfold normC aposFix lowerC upperC
  split_ifs <;> omega

theorem normC_lowerC (c : Nat) : normC (lowerC c) = normC c := by
  unfold normC aposFix lowerC
  split_ifs <;> omega

theorem normPh_lower_map (r : Str) : normPh (r.map lowerC) = normPh r := by
  rw [normPh, normPh, List.map_map]
  exact List.map_congr_left fun a _ => normC_lowerC a

theorem normPh_scSpecAux (t : Str) : normPh (scSpecAux t) = normPh t := by
  induction t with
  | nil => rfl
  | cons c r ih =>
    by_cases h : isAlphaC c
    · rw [scSpecAux, if_pos h]
      show normC (upperC c) :: normPh (r.map lowerC) = normC c :: normPh r
      rw [normC_upperC, normPh_lower_map]
    · rw [scSpecAux, if_neg h]
      show normC c :: normPh (scSpecAux r) = normC c :: normPh r
      rw [ih]

theorem sentence_case_eq_spec (s : Str) : sentence_case s = scSpecAux (trim s) := by
  rw [sentence_case]
  exact scSpecAux_eq (trim s)

theorem normPh_sentence_case (s : Str) : normPh (sentence_case s) = normPh (trim s) := by
  rw [sentence_case_eq_spec, normPh_scSpecAux]

theorem normPh_mono {x y : Str} (h : x <:+: y) : normPh x <:+: normPh y :=
  infix_map normC h

/-- The possible outcomes of the title-recovery safety net: the title is
either kept, or replaced by a trimmed infix of the allergens text. -/
theorem recoverVe_fst_cases (t a : Str) :
    (recoverVe t a).1 = t ∨ ∃ p e, (recoverVe t a).1 = trim ((a.take e).drop p) := by
  rw [recoverVe]
  split
  · cases hext : extractVe a with
    | none => simp [hext]
    | some pe =>
      simp only [hext]
      split
      · exact Or.inr ⟨pe.1, pe.2, rfl⟩
      · exact Or.inl rfl
  · exact Or.inl rfl

/-- No soup phrase in `x` means no soup phrase in its trimmed form. -/
theorem noPhrase_trim {x : Str} (h : ¬ PHRASE <:+: normPh x) :
    ¬ PHRASE <:+: normPh (trim x) :=
  fun hc => h (List.IsInfix.trans hc (normPh_mono (trim_infix_self x)))

theorem noPhrase_strip {x : Str} (h : ¬ PHRASE <:+: normPh x) :
    ¬ PHRASE <:+: normPh (strip_suffixes x) :=
  fun hc => h (List.IsInfix.trans hc (normPh_mono (strip_suffixes_infix_self x)))

/-- A data-row label is free of the soup-ve phrase once its source is
free of the soup phrase: verbatim labels. -/
theorem soupFree_verbatim {x : Str} (h : ¬ PHRASE <:+: normPh x) :
    containsSub (normPh (trim x)) PHRASE_VE = false := by
  rw [containsSub, decide_eq_false_iff_not]
  intro hc
  exact noPhrase_trim h (List.IsInfix.trans (List.IsPrefix.isInfix phrase_prefix_ve) hc)

/-- Labels of the form `x ++ " (V)"` or `x ++ " (Ve)"`: the soup-ve
phrase cannot appear, by the straddle analysis. -/
theorem soupFree_tagged {x tag : Str} (h : ¬ PHRASE <:+: normPh x)
    (htag : tag = " (V)".toCodes ∨ tag = " (Ve)".toCodes) :
    containsSub (normPh (trim (x ++ tag))) PHRASE_VE = false := by
  rw [containsSub, decide_eq_false_iff_not]
  intro hc
  have h1 : PHRASE_VE <:+: normPh (x ++ tag) :=
    List.IsInfix.trans hc (normPh_mono (trim_infix_self _))
  rw [normPh, List.map_append] at h1
  rcases htag with rfl | rfl
  · exact not_phraseVe_append h (by decide) (by decide) h1
  · exact not_phraseVe_append h (by decide) (by decide) h1

/-- Labels of the form `add_suffix x "(Ve)"`. -/
theorem soupFree_add_suffix {x : Str} (h : ¬ PHRASE <:+: normPh x) :
    containsSub (normPh (trim (add_suffix x "(Ve)".toCodes))) PHRASE_VE = false := by
  have h2 : trim (add_suffix x "(Ve)".toCodes) = add_suffix x "(Ve)".toCodes := by
    rw [add_suffix, trim_trim]
  rw [h2]
  have h3 : add_suffix x "(Ve)".toCodes = trim (strip_suffixes x ++ " (Ve)".toCodes) := by
    rw [add_suffix]
    rfl
  rw [h3]
  exact soupFree_tagged (noPhrase_strip h) (Or.inr rfl)

/-- Labels of the form `sentence_case (strip_suffixes x) ++ tag`. -/
theorem soupFree_sc_tagged {x tag : Str} (h : ¬ PHRASE <:+: normPh x)
    (htag : tag = " (V)".toCodes ∨ tag = " (Ve)".toCodes) :
    containsSub (normPh (trim (sentence_case (strip_suffixes x) ++ tag))) PHRASE_VE =
      false := by
  rw [containsSub, decide_eq_false_iff_not]
  intro hc
  have h1 : PHRASE_VE <:+: normPh (sentence_case (strip_suffixes x) ++ tag) :=
    List.IsInfix.trans hc (normPh_mono (trim_infix_self _))
  rw [normPh, List.map_append] at h1
  have hA : ¬ PHRASE <:+: normPh (sentence_case (strip_suffixes x)) := by
    rw [show normPh (sentence_case (strip_suffixes x)) =
        (sentence_case (strip_suffixes x)).map normC from rfl,
      show (sentence_case (strip_suffixes x)).map normC =
        normPh (sentence_case (strip_suffixes x)) from rfl,
      normPh_sentence_case]
    exact noPhrase_trim (noPhrase_strip h)
  rcases htag with rfl | rfl
  · exact not_phraseVe_append hA (by decide) (by decide) h1
  · exact not_phraseVe_append hA (by decide) (by decide) h1

theorem rtStr_plain (s : Str) : rtStr (.plain s) = s := rfl

set_option maxRecDepth 8000

/-- The fixed XML prefix of a highlighted title's `str(...)` form. -/
def YPRE : Str :=
  "<w:r><w:rPr><w:highlight w:val=".toCodes ++ 34 ::
  "yellow".toCodes ++ 34 :: "/></w:rPr><w:t xml:space=".toCodes ++ 34 ::
  "preserve".toCodes ++ [34, 62]

/-- The fixed XML suffix of a highlighted title's `str(...)` form. -/
def YPOST : Str := "</w:t></w:r>".toCodes

theorem rtStr_yellow (s : Str) : rtStr (.yellow s) = YPRE ++ (s ++ YPOST) := by
  simp [rtStr, YPRE, YPOST]

/-- Straddle analysis across the RichText XML wrapper: the soup-ve
phrase cannot occur in `A ++ (t ++ B)` when the wrapped text `t` is free
of the soup phrase, neither fixed part contains the full phrase, no
nonempty prefix of the phrase is a suffix of `A`, and no nonempty suffix
of the phrase is a prefix of `B`. -/
theorem not_phraseVe_wrap {A B t : Str} (hA1 : ¬ PHRASE_VE <:+: A)
    (hA2 : ∀ x ∈ PHRASE_VE.inits, x <:+ A → x = [])
    (hB1 : ¬ PHRASE_VE <:+: B)
    (hB2 : ∀ y ∈ PHRASE_VE.tails, y <+: B → y = [])
    (ht : ¬ PHRASE <:+: t) :
    ¬ PHRASE_VE <:+: A ++ (t ++ B) := by
  have hmid : ¬ PHRASE_VE <:+: t ++ B := by
    intro h
    rcases infix_append_cases h with h1 | h1 | ⟨x, y, hxy, hx, hy⟩
    · exact ht (List.IsInfix.trans (List.IsPrefix.isInfix phrase_prefix_ve) h1)
    · exact hB1 h1
    · have hytail : y ∈ PHRASE_VE.tails := List.mem_tails y PHRASE_VE |>.mpr ⟨x, hxy.symm⟩
      have hy0 := hB2 y hytail hy
      subst hy0
      rw [List.append_nil] at hxy
      exact ht (List.IsInfix.trans (List.IsPrefix.isInfix phrase_prefix_ve)
        (List.IsSuffix.isInfix (hxy ▸ hx)))
  intro h
  rcases infix_append_cases h with h1 | h1 | ⟨x, y, hxy, hx, hy⟩
  · exact hA1 h1
  · exact hmid h1
  · have hxmem : x ∈ PHRASE_VE.inits := List.mem_inits x PHRASE_VE |>.mpr ⟨y, hxy.symm⟩
    have hx0 := hA2 x hxmem hx
    subst hx0
    rw [List.nil_append] at hxy
    exact hmid (by rw [hxy]; exact List.IsPrefix.isInfix hy)

/-- Labels that are the XML of a highlighted title: the soup-ve phrase
cannot appear once the wrapped text is free of the soup phrase (the
fixed XML parts contain no fragment of the phrase that could complete
an occurrence across a boundary). -/
theorem soupFree_yellow {x : Str} (h : ¬ PHRASE <:+: normPh x) :
    containsSub (normPh (trim (rtStr (.yellow x)))) PHRASE_VE = false := by
  rw [containsSub, decide_eq_false_iff_not]
  intro hc
  have h1 : PHRASE_VE <:+: normPh (rtStr (.yellow x)) :=
    List.IsInfix.trans hc (normPh_mono (trim_infix_self _))
  rw [rtStr_yellow, normPh, List.map_append, List.map_append] at h1
  exact not_phraseVe_wrap (by decide) (by decide) (by decide) (by decide) h h1

/-! Filtering the assembled rows for the soup-ve phrase. -/

theorem filter_addData_nil {t : Str} {c : Finset Str}
    (h : containsSub (normPh (trim t)) PHRASE_VE = false) :
    (addData t c).filter soupRow = [] := by
  rw [addData]
  split
  · rfl
  · simp [soupRow, h]

theorem filter_addData_one {t : Str} {c : Finset Str} (hne : trim t ≠ [])
    (h : containsSub (normPh (trim t)) PHRASE_VE = true) :
    (addData t c).filter soupRow = [⟨trim t, c, false⟩] := by
  rw [addData, if_neg hne]
  simp [soupRow, h]

theorem filter_heading_nil {t : Str} (h : containsSub (normPh t) PHRASE_VE = false) :
    (headingRow t).filter soupRow = [] := by
  simp [headingRow, soupRow, h]

/-- Full evaluation of the standard builder on a day of the parsed shape
whose first starter title does not trip the soup-highlight predicate:
the second starter's title is either kept plain or highlighted by the
predicate, and the day record comes back with exactly that starter
written into it. -/
theorem bsc_eval (d : Day) (t1 a1 t2 a2 : Str) (ld0 ld1 : SrcItem) (ldt : List SrcItem)
    (sd0 sd1 : SrcItem) (sdt : List SrcItem) (r2 : RT)
    (hst : d.lunch.starters = [⟨.plain t1, a1⟩, ⟨.plain t2, a2⟩])
    (hld : d.lunch.desserts = ld0 :: ld1 :: ldt)
    (hsd : d.supper.desserts = sd0 :: sd1 :: sdt)
    (hs1 : is_chefs_choice_soup t1 = false)
    (hr2 : (is_chefs_choice_soup t2 = false ∧ r2 = .plain t2) ∨
           (is_chefs_choice_soup t2 = true ∧ r2 = .yellow t2)) :
    build_standard_context d = some (
      { d with lunch := { d.lunch with starters := [⟨.plain t1, a1⟩, ⟨r2, a2⟩] } },
      { header := ⟨d.header.theme, d.header.date⟩,
        days := ⟨d.header.theme, d.header.date⟩,
        lunch :=
          { starters := [⟨.plain t1, .plain [], a1⟩, ⟨r2, .plain [], a2⟩],
            mains := [⟨.plain (strip_suffixes d.lunch.veg_main.title ++ " (V)".toCodes),
                       .plain d.lunch.veg_main.description, d.lunch.veg_main.allergens⟩,
                      ⟨.plain (strip_suffixes d.lunch.meat_main.title),
                       .plain d.lunch.meat_main.description, d.lunch.meat_main.allergens⟩],
            optional_sides := ⟨.plain d.lunch.optional_sides.title, .plain [],
              d.lunch.optional_sides.allergens⟩,
            desserts := [⟨.plain (sentence_case (strip_suffixes ld0.title) ++ " (V)".toCodes),
                          .plain [], ld0.allergens⟩,
                         ⟨.plain ld1.title, .plain [], ld1.allergens⟩] },
        supper :=
          { starter := ⟨.yellow SOUP_V, .plain [], a1⟩,
            selection := ⟨.plain [], .plain [], SELECTION_ALL⟩,
            specials := ⟨.plain (strip_suffixes d.supper.specials.title),
              .plain d.supper.specials.description, d.supper.specials.allergens⟩,
            desserts := [⟨.plain (sentence_case (strip_suffixes sd0.title) ++ " (V)".toCodes),
                          .plain [], sd0.allergens⟩,
                         ⟨.plain sd1.title, .plain [], sd1.allergens⟩] } }) := by
  obtain ⟨hdr, ⟨sts, vm, mm, vgm, opt, lds⟩, ⟨sst, sel, sp, vsp, sds⟩⟩ := d
  dsimp only at hst hld hsd ⊢
  subst hst
  subst hld
  subst hsd
  unfold build_standard_context
  dsimp only
  rcases hr2 with ⟨hs2, rfl⟩ | ⟨hs2, rfl⟩ <;>
    simp [ensure_len, is_chefs_rt, rtStr, hs1, hs2, yellowOfRT,
      (by decide : is_chefs_choice_soup SOUP_V = true)]

/-- The vegan context's lunch mains: the fixed Jacket-potato item
followed by the (possibly title-recovered) weekly vegan main. -/
theorem bvc_mains (d : Day) (c : Ctx) (h : build_vegan_context d = some c) :
    ∃ dsc, c.lunch.mains =
      [⟨.plain JACKET, .plain [], []⟩,
       ⟨.plain (add_suffix (strip_suffixes
           (recoverVe d.lunch.vegan_main.title d.lunch.vegan_main.allergens).1)
           "(Ve)".toCodes),
        dsc,
        remove_tokens_from_csv
          (recoverVe d.lunch.vegan_main.title d.lunch.vegan_main.allergens).2⟩] := by
  unfold build_vegan_context at h
  dsimp only [] at h
  split at h
  · rw [Option.some_inj] at h
    subst h
    exact ⟨_, rfl⟩
  · exact absurd h (by simp)

/-- Claim C3 (corrected): for a day of the parsed shape whose source
titles (and the vegan-main allergens text, which can be promoted to a
title) are free of the phrase "chef's choice soup" — case- and
apostrophe-insensitively — and whose first starter title does not trip
the soup-highlight predicate (a condition the pipeline's success already
forces, since a highlighted first starter aborts the vegan build), the
assembled allergen table contains exactly one row whose label contains
"Chef's choice soup (Ve)": the fixed vegan supper-soup line.  The
second starter may trip the predicate: its label is then the RichText
XML around the phrase-free title and still contributes no occurrence.
(As stated over all day records the claim fails: a source title
containing the phrase duplicates it, see the counterexample.) -/
theorem c3_one_soup_line (d d' : Day) (s v : Ctx) (rows : List Row)
    (t1 a1 t2 a2 : Str) (ld0 ld1 : SrcItem) (ldt : List SrcItem)
    (sd0 sd1 : SrcItem) (sdt : List SrcItem)
    (hpipe : pipeline d = some (d', s, v, rows))
    (hst : d.lunch.starters = [⟨.plain t1, a1⟩, ⟨.plain t2, a2⟩])
    (hld : d.lunch.desserts = ld0 :: ld1 :: ldt)
    (hsd : d.supper.desserts = sd0 :: sd1 :: sdt)
    (hs1 : is_chefs_choice_soup t1 = false)
    (hp1 : ¬ PHRASE <:+: normPh t1) (hp2 : ¬ PHRASE <:+: normPh t2)
    (hpv : ¬ PHRASE <:+: normPh d.lunch.veg_main.title)
    (hpm : ¬ PHRASE <:+: normPh d.lunch.meat_main.title)
    (hpo : ¬ PHRASE <:+: normPh d.lunch.optional_sides.title)
    (hpld : ¬ PHRASE <:+: normPh ld0.title)
    (hpsp : ¬ PHRASE <:+: normPh d.supper.specials.title)
    (hpsd : ¬ PHRASE <:+: normPh sd0.title)
    (hpvt : ¬ PHRASE <:+: normPh d.lunch.vegan_main.title)
    (hpva : ¬ PHRASE <:+: normPh d.lunch.vegan_main.allergens)
    (hpvs : ¬ PHRASE <:+: normPh d.supper.vegan_special.title) :
    (rows.filter soupRow).length = 1 := by
  obtain ⟨r2, hr2, hlab2⟩ :
      ∃ r2 : RT, ((is_chefs_choice_soup t2 = false ∧ r2 = .plain t2) ∨
          (is_chefs_choice_soup t2 = true ∧ r2 = .yellow t2)) ∧
        containsSub (normPh (trim (rtStr r2))) PHRASE_VE = false := by
    by_cases hb : is_chefs_choice_soup t2 = true
    · exact ⟨.yellow t2, Or.inr ⟨hb, rfl⟩, soupFree_yellow hp2⟩
    · exact ⟨.plain t2, Or.inl ⟨by simpa using hb, rfl⟩, soupFree_verbatim hp2⟩
  have hbsc := bsc_eval d t1 a1 t2 a2 ld0 ld1 ldt sd0 sd1 sdt r2 hst hld hsd hs1 hr2
  unfold pipeline at hpipe
  rw [hbsc] at hpipe
  dsimp only at hpipe
  split at hpipe
  · simp at hpipe
  · rename_i vegc hbvc
    split at hpipe
    · simp at hpipe
    · rename_i rows0 hcol
      simp only [Option.some_inj, Prod.mk.injEq] at hpipe
      obtain ⟨-, -, hveq, hreq⟩ := hpipe
      subst hveq
      subst hreq
      obtain ⟨dsc, hmains⟩ := bvc_mains _ vegc hbvc
      dsimp only at hmains
      unfold collect_allergen_items_for_table at hcol
      dsimp only at hcol
      rw [hld, hsd, hmains] at hcol
      simp only [rtStr_plain, List.flatMap_cons, List.flatMap_nil, List.append_nil,
        (by decide : containsSub (lower JACKET) "jacket".toCodes = true), if_true] at hcol
      rw [Option.some_inj] at hcol
      subst hcol
      have hrec : ¬ PHRASE <:+:
          normPh (recoverVe d.lunch.vegan_main.title d.lunch.vegan_main.allergens).1 := by
        rcases recoverVe_fst_cases d.lunch.vegan_main.title d.lunch.vegan_main.allergens
          with hcase | ⟨p, e, hcase⟩
        · rw [hcase]; exact hpvt
        · rw [hcase]
          intro hc
          exact hpva (List.IsInfix.trans
            (List.IsInfix.trans hc (normPh_mono (trim_infix_self _)))
            (normPh_mono (drop_take_infix_self _ p e)))
      simp only [List.filter_append]
      rw [filter_heading_nil (t := "— Standard —".toCodes) (by decide),
        filter_addData_nil (soupFree_verbatim hp1),
        filter_addData_nil hlab2,
        filter_addData_nil (soupFree_verbatim hpv),
        filter_addData_nil (soupFree_verbatim hpm),
        filter_addData_nil (soupFree_verbatim hpo),
        filter_addData_nil (soupFree_sc_tagged hpld (Or.inl rfl)),
        filter_addData_nil (t := SOUP_V) (by decide),
        filter_addData_nil (soupFree_verbatim (noPhrase_strip hpsp)),
        filter_addData_nil (soupFree_sc_tagged hpsd (Or.inl rfl)),
        filter_heading_nil (t := "— Vegan —".toCodes) (by decide),
        filter_addData_nil (soupFree_add_suffix hp1),
        filter_addData_nil (t := JACKET) (by decide),
        filter_addData_nil (soupFree_verbatim hpo),
        filter_addData_nil (soupFree_sc_tagged hpld (Or.inr rfl)),
        filter_addData_one (t := SOUP_VE) (by decide) (by decide),
        filter_addData_nil (soupFree_add_suffix (noPhrase_strip hpvs)),
        filter_addData_nil (soupFree_sc_tagged hpsd (Or.inr rfl))]
      by_cases hj : containsSub
          (lower (add_suffix (strip_suffixes
            (recoverVe d.lunch.vegan_main.title d.lunch.vegan_main.allergens).1)
            "(Ve)".toCodes)) "jacket".toCodes = true
      · rw [if_pos hj, filter_addData_nil (t := JACKET) (by decide)]
        simp
      · rw [if_neg hj, filter_addData_nil (soupFree_add_suffix (noPhrase_strip hrec))]
        simp

/-- A day whose meat-main title is "Chef's choice soup (Ve)" and whose
vegan-supper-special title is "Chef's choice soup" (both with the ASCII
apostrophe, as the claim spells the phrase). -/
def c3day : Day :=
  { header := ⟨[], [], [], []⟩,
    lunch :=
      { starters := [⟨.plain "Tomato soup".toCodes, "Celery".toCodes⟩, ⟨.plain [], []⟩],
        veg_main := emptySrcItem,
        meat_main := ⟨"Chef".toCodes ++ 39 :: "s choice soup (Ve)".toCodes, [], []⟩,
        vegan_main := emptySrcItem,
        optional_sides := emptySrcItem,
        desserts := [emptySrcItem, emptySrcItem] },
    supper :=
      { starter := ⟨CHEFS_SOUP, [], []⟩,
        selection := ⟨[], [], SELECTION_ALL⟩,
        specials := emptySrcItem,
        vegan_special := ⟨"Chef".toCodes ++ 39 :: "s choice soup".toCodes, [], []⟩,
        desserts := [emptySrcItem, emptySrcItem] } }

/-- Counterexample for C3 as stated: on `c3day` the assembled table has
two rows whose labels contain "Chef's choice soup (Ve)" verbatim — the
meat-main row (copied from the source title) and the vegan
supper-special row (source title plus the "(Ve)" suffix). -/
theorem c3_two_soup_rows :
    ((pipeline c3day).map fun t =>
      (t.2.2.2.filter fun r => containsSub r.label CLAIM_SOUP_VE).length) = some 2 := by
  decide

/-- An ordinary day used as the C3 witness. -/
def c3wday : Day :=
  { header := ⟨[], [], [], []⟩,
    lunch :=
      { starters := [⟨.plain "Tomato soup".toCodes, "Celery, Milk".toCodes⟩,
                     ⟨.plain "Melon boat".toCodes, []⟩],
        veg_main := ⟨"Veg lasagne (V)".toCodes, [], "Gluten, Milk".toCodes⟩,
        meat_main := ⟨"Beef stew".toCodes, [], "Celery".toCodes⟩,
        vegan_main := ⟨"Bean chilli".toCodes, [], "Celery".toCodes⟩,
        optional_sides := ⟨"Peas, Carrots".toCodes, [], "Milk".toCodes⟩,
        desserts := [⟨"Apple crumble".toCodes, [], "Gluten, Milk".toCodes⟩,
                     ⟨ICE_V, [], "Milk".toCodes⟩] },
    supper :=
      { starter := ⟨CHEFS_SOUP, [], "Celery, Milk".toCodes⟩,
        selection := ⟨[], [], SELECTION_ALL⟩,
        specials := ⟨"Omelette".toCodes, [], "Egg".toCodes⟩,
        vegan_special := ⟨"Tofu scramble".toCodes, [], "Soya".toCodes⟩,
        desserts := [⟨"Fruit salad".toCodes, [], "Sulphites".toCodes⟩,
                     ⟨ICE_VE, [], "Soya".toCodes⟩] } }

/-- Witness for C3 (amended) at `c3wday`. -/
theorem c3_one_soup_line_witness :
    ((pipeline c3wday).map fun t => (t.2.2.2.filter soupRow).length) = some 1 := by
  have hs : (pipeline c3wday).isSome := by decide
  cases hp : pipeline c3wday with
  | none => rw [hp] at hs; simp at hs
  | some t =>
    have htup : pipeline c3wday = some (t.1, t.2.1, t.2.2.1, t.2.2.2) := by rw [hp]
    have h := c3_one_soup_line c3wday t.1 t.2.1 t.2.2.1 t.2.2.2
      "Tomato soup".toCodes "Celery, Milk".toCodes "Melon boat".toCodes []
      ⟨"Apple crumble".toCodes, [], "Gluten, Milk".toCodes⟩ ⟨ICE_V, [], "Milk".toCodes⟩ []
      ⟨"Fruit salad".toCodes, [], "Sulphites".toCodes⟩ ⟨ICE_VE, [], "Soya".toCodes⟩ []
      htup (by decide) (by decide) (by decide) (by decide) (by decide) (by decide)
      (by decide) (by decide) (by decide) (by decide) (by decide) (by decide) (by decide)
      (by decide) (by decide)
    exact Option.map_eq_some'.mpr ⟨t, rfl, h⟩

end GM
